import Mathlib

set_option linter.unreachableTactic false
set_option linter.unusedTactic false
set_option linter.unnecessarySeqFocus false

/-!
Shallow embedding of the MIPSEMU 1.01-HDR core (darknessmipsemu_v1.01_hdr.py):
the ROM-header parser (class ROMHeader), the system-control coprocessor
(class COP0), the CPU execution engine (class MIPSCPU) and the address-space
decoder (class Memory), together with the save-state capture/restore pair of
the driver (MIPSEMU.save_state / MIPSEMU.load_state).

Python integers are unbounded non-negative in every register/memory slot of
the program (negative intermediates only occur inside signed helpers), so
machine words are modelled as Nat, with signed intermediates as Int.
Byte stores (bytearray cells) are modelled as total functions Nat -> Nat;
the program only ever stores values masked to a byte there.
-/

namespace Darkness

/-- Python `x & ~m` for non-negative `x` and mask `m`: clears in `x` exactly
the bits set in `m`.  Since `x &&& m` is the common bit pattern, subtracting
it removes those bits. -/
def pyAndNot (x m : Nat) : Nat := x - (x &&& m)

/-- Python `x & 0xFFFFFFFF` for an arbitrary (possibly negative) int:
the unique representative of `x` modulo 2^32 in `[0, 2^32)`. -/
def pyAnd32 (x : Int) : Nat := (x % (4294967296 : Int)).toNat

/-- Python `x >> n` on an int: arithmetic (floor) shift. -/
def pyShr (x : Int) (n : Nat) : Int := Int.fdiv x (2 ^ n)

/-- Python `~x & 0xFFFFFFFF` for non-negative `x`: bitwise complement
truncated to 32 bits. -/
def pyNot32 (x : Nat) : Nat := 0xFFFFFFFF - (x &&& 0xFFFFFFFF)

/-- Pointwise update of a `Nat`-indexed store (Python `arr[i] = v`). -/
def upd (f : Nat → Nat) (i v : Nat) : Nat → Nat := fun j => if j = i then v else f j

/-- `struct.unpack('>I', bytes([b0,b1,b2,b3]))[0]`: big-endian 32-bit word
from four bytes. -/
def be32 (b0 b1 b2 b3 : Nat) : Nat := (b0 <<< 24) ||| (b1 <<< 16) ||| (b2 <<< 8) ||| b3

/-! ## ROMHeader (header parsing and endianness normalisation) -/

/-- `ROMHeader.swap_endian_n64`: reverse the data in 4-byte groups
(`result[i:i+4] = data[i:i+4][::-1]` for `i = 0, 4, 8, ...`); a ragged tail
of fewer than 4 bytes is reversed as a group of its own, exactly as the
Python slice reversal does. -/
def swap_endian_n64 : List Nat → List Nat
  | a :: b :: c :: d :: rest => d :: c :: b :: a :: swap_endian_n64 rest
  | l => l.reverse

/-- `ROMHeader.swap_endian_v64`: swap adjacent byte pairs
(`result[i] = data[i+1]; result[i+1] = data[i]` for `i = 0, 2, 4, ...`).
On odd-length data the final iteration evaluates `data[i+1]` one past the
end and raises `IndexError`; that crash is modelled as `none`. -/
def swap_endian_v64 : List Nat → Option (List Nat)
  | [] => some []
  | [_] => none
  | a :: b :: rest => (swap_endian_v64 rest).map fun r => b :: a :: r

/-- The fields of a parsed `ROMHeader` that the verified claims mention:
the validity flag, the endianness tag and the (possibly endian-normalised)
header byte buffer `raw_data`.  The further fields the Python parser derives
from `raw_data` (boot address, CRCs, name, ...) are total functions of this
buffer and are not needed by any claim. -/
structure ROMHeader where
  valid : Bool
  endian : String
  data : List Nat
  deriving DecidableEq

/-- `ROMHeader.__init__` + `ROMHeader.parse`: take the first 0x1000 bytes,
reject short headers (the Python object keeps `valid = False` and never sets
`endian`; modelled with the empty tag), then dispatch on the big-endian magic
word.  A crash of the v64 byte swap propagates out of the constructor,
modelled as `none`. -/
def ROMHeader.parse (data : List Nat) : Option ROMHeader :=
  let raw := data.take 0x1000
  if raw.length < 0x40 then some ⟨false, "", raw⟩
  else
    let magic := be32 (raw.getD 0 0) (raw.getD 1 0) (raw.getD 2 0) (raw.getD 3 0)
    if magic = 0x80371240 then some ⟨true, "big", raw⟩
    else if magic = 0x40123780 then some ⟨true, "little", swap_endian_n64 raw⟩
    else if magic = 0x37804012 then
      match swap_endian_v64 raw with
      | some r => some ⟨true, "byteswap", r⟩
      | none => none
    else some ⟨false, "unknown", raw⟩

/-! ## Memory (class Memory: address-space decoder) -/

/-- The backing stores of `Memory.__init__`.  The byte stores are modelled as
total functions from addresses to byte values.  `rom` is `none` while no ROM
is loaded (`self.rom = None`); `rom_size = len(rom_data)` after `load_rom`.
The four device register blocks MI/VI/AI/PI are accessed by the code only as
whole 32-bit registers at word-aligned offsets (`read_io`/`write_io`), so
they are modelled as word-register files indexed by register number. -/
structure Memory where
  rdram : Nat → Nat
  rom : Option (Nat → Nat)
  rom_size : Nat
  sram : Nat → Nat
  eeprom : Nat → Nat
  flashram : Nat → Nat
  mi : Nat → Nat
  vi : Nat → Nat
  ai : Nat → Nat
  pi : Nat → Nat

/-- A fresh `Memory()`: all stores zeroed, no ROM loaded. -/
def Memory.init : Memory :=
  ⟨fun _ => 0, none, 0, fun _ => 0, fun _ => 0, fun _ => 0,
   fun _ => 0, fun _ => 0, fun _ => 0, fun _ => 0⟩

/-- `Memory.read_byte`. -/
def Memory.read_byte (m : Memory) (addr : Nat) : Nat :=
  let addr := addr &&& 0xFFFFFFFF
  if addr < 0x00800000 ∨ (0xA0000000 ≤ addr ∧ addr < 0xA0800000) then
    let ram_addr := addr &&& 0x007FFFFF
    if ram_addr < 0x800000 then m.rdram ram_addr else 0
  else if (0x10000000 ≤ addr ∧ addr < 0x1FBFFFFF) ∨ (0xB0000000 ≤ addr ∧ addr < 0xBFFFFFFF) then
    let rom_addr := addr &&& 0x0FFFFFFF
    match m.rom with
    | some r => if rom_addr < m.rom_size then r rom_addr else 0
    | none => 0
  else if (0x08000000 ≤ addr ∧ addr < 0x08008000) ∨ (0xA8000000 ≤ addr ∧ addr < 0xA8008000) then
    m.sram (addr &&& 0x7FFF)
  else 0

/-- `Memory.read_half`: composed from two byte reads. -/
def Memory.read_half (m : Memory) (addr : Nat) : Nat :=
  (m.read_byte addr <<< 8) ||| m.read_byte (addr + 1)

/-- `Memory.read_io` (source name `read_io`): word read of a device
register.  Python slices 4 bytes at `reg*4` out of the block and unpacks
them big-endian; on the word-register model this is a plain lookup. -/
def Memory.io_read (m : Memory) (addr : Nat) : Nat :=
  if 0x04300000 ≤ addr ∧ addr < 0x04300020 then m.mi ((addr >>> 2) &&& 0x7)
  else if 0x04400000 ≤ addr ∧ addr < 0x04400040 then m.vi ((addr >>> 2) &&& 0xF)
  else if 0x04500000 ≤ addr ∧ addr < 0x04500020 then m.ai ((addr >>> 2) &&& 0x7)
  else if 0x04600000 ≤ addr ∧ addr < 0x04600040 then m.pi ((addr >>> 2) &&& 0xF)
  else 0

/-- `Memory.read_word`: the fast word path.  Python guards the direct 4-byte
transfer with `ram_addr < len(self.rdram) - 3` resp.
`rom_addr < self.rom_size - 3`; over the integers these are
`ram_addr + 3 < 0x800000` resp. `rom_addr + 3 < rom_size`. -/
def Memory.read_word (m : Memory) (addr : Nat) : Nat :=
  let addr := addr &&& 0xFFFFFFFF
  if addr < 0x00800000 ∨ (0xA0000000 ≤ addr ∧ addr < 0xA0800000) then
    let ram_addr := addr &&& 0x007FFFFF
    if ram_addr + 3 < 0x800000 then
      be32 (m.rdram ram_addr) (m.rdram (ram_addr + 1)) (m.rdram (ram_addr + 2))
        (m.rdram (ram_addr + 3))
    else 0
  else if (0x10000000 ≤ addr ∧ addr < 0x1FBFFFFF) ∨ (0xB0000000 ≤ addr ∧ addr < 0xBFFFFFFF) then
    let rom_addr := addr &&& 0x0FFFFFFF
    match m.rom with
    | some r =>
      if rom_addr + 3 < m.rom_size then
        be32 (r rom_addr) (r (rom_addr + 1)) (r (rom_addr + 2)) (r (rom_addr + 3))
      else 0
    | none => 0
  else if 0x04000000 ≤ addr ∧ addr < 0x05000000 then m.io_read addr
  else 0

/-- `Memory.write_byte`. -/
def Memory.write_byte (m : Memory) (addr value : Nat) : Memory :=
  let addr := addr &&& 0xFFFFFFFF
  let value := value &&& 0xFF
  if addr < 0x00800000 ∨ (0xA0000000 ≤ addr ∧ addr < 0xA0800000) then
    let ram_addr := addr &&& 0x007FFFFF
    if ram_addr < 0x800000 then { m with rdram := upd m.rdram ram_addr value } else m
  else if (0x08000000 ≤ addr ∧ addr < 0x08008000) ∨ (0xA8000000 ≤ addr ∧ addr < 0xA8008000) then
    { m with sram := upd m.sram (addr &&& 0x7FFF) value }
  else m

/-- `Memory.write_half`: two byte writes. -/
def Memory.write_half (m : Memory) (addr value : Nat) : Memory :=
  let value := value &&& 0xFFFF
  (m.write_byte addr ((value >>> 8) &&& 0xFF)).write_byte (addr + 1) (value &&& 0xFF)

/-- `Memory.write_io` (source name `write_io`): word write of a device
register. -/
def Memory.io_write (m : Memory) (addr value : Nat) : Memory :=
  if 0x04300000 ≤ addr ∧ addr < 0x04300020 then
    { m with mi := upd m.mi ((addr >>> 2) &&& 0x7) value }
  else if 0x04400000 ≤ addr ∧ addr < 0x04400040 then
    { m with vi := upd m.vi ((addr >>> 2) &&& 0xF) value }
  else if 0x04500000 ≤ addr ∧ addr < 0x04500020 then
    { m with ai := upd m.ai ((addr >>> 2) &&& 0x7) value }
  else if 0x04600000 ≤ addr ∧ addr < 0x04600040 then
    { m with pi := upd m.pi ((addr >>> 2) &&& 0xF) value }
  else m

/-- `Memory.write_word`: `struct.pack_into('>I', ...)` stores the four
big-endian bytes of the masked value. -/
def Memory.write_word (m : Memory) (addr value : Nat) : Memory :=
  let addr := addr &&& 0xFFFFFFFF
  let value := value &&& 0xFFFFFFFF
  if addr < 0x00800000 ∨ (0xA0000000 ≤ addr ∧ addr < 0xA0800000) then
    let ram_addr := addr &&& 0x007FFFFF
    if ram_addr + 3 < 0x800000 then
      let r0 := upd m.rdram ram_addr ((value >>> 24) &&& 0xFF)
      let r1 := upd r0 (ram_addr + 1) ((value >>> 16) &&& 0xFF)
      let r2 := upd r1 (ram_addr + 2) ((value >>> 8) &&& 0xFF)
      { m with rdram := upd r2 (ram_addr + 3) (value &&& 0xFF) }
    else m
  else if 0x04000000 ≤ addr ∧ addr < 0x05000000 then m.io_write addr value
  else m

/-! ## COP0 (class COP0: system-control coprocessor register file) -/

/-- `COP0.__init__`: zeros except PRId (reg 15) = 0xB00 and
Status (reg 12) = 0x34000000. -/
def cop0_init : Nat → Nat :=
  fun n => if n = 15 then 0xB00 else if n = 12 then 0x34000000 else 0

/-- `COP0.read`. -/
def cop0_read (regs : Nat → Nat) (reg : Nat) : Nat := regs (reg &&& 0x1F)

/-- `COP0.write`: per-register policy.  Index (0) masked to 6 bits,
Random (1) read-only, Compare (11) stores the value and clears the timer
interrupt bit in Cause (13) via `&= ~0x8000`, everything else raw. -/
def cop0_write (regs : Nat → Nat) (reg value : Nat) : Nat → Nat :=
  let reg := reg &&& 0x1F
  if reg = 0 then upd regs reg (value &&& 0x3F)
  else if reg = 1 then regs
  else if reg = 11 then
    let r1 := upd regs reg value
    upd r1 13 (pyAndNot (r1 13) 0x8000)
  else upd regs reg value

/-! ## MIPSCPU (CPU execution engine) -/

/-- The mutable state of a `MIPSCPU` instance (including its `Memory`,
which the Python object holds by reference).  The stubbed COP1 register
file is never read by any modelled operation and is omitted. -/
structure CPU where
  mem : Memory
  pc : Nat
  next_pc : Nat
  registers : Nat → Nat
  hi : Nat
  lo : Nat
  cop0 : Nat → Nat
  running : Bool
  instructions_executed : Nat
  cycles : Nat
  branch_delay : Bool
  delay_slot_pc : Nat
  load_delay : Bool
  load_reg : Nat
  load_value : Nat
  llbit : Bool
  lladdr : Nat
  exception_pending : Bool
  exception_code : Nat

/-- `MIPSCPU.__init__(memory)`. -/
def CPU.init (m : Memory) : CPU :=
  { mem := m
    pc := 0xA4000040
    next_pc := 0xA4000040 + 4
    registers := fun _ => 0
    hi := 0
    lo := 0
    cop0 := cop0_init
    running := false
    instructions_executed := 0
    cycles := 0
    branch_delay := false
    delay_slot_pc := 0
    load_delay := false
    load_reg := 0
    load_value := 0
    llbit := false
    lladdr := 0
    exception_pending := false
    exception_code := 0 }

/-- `MIPSCPU.reset`: restores the boot state but (as in the source) leaves
`running`, `load_reg`, `load_value`, `delay_slot_pc`, `lladdr`,
`exception_code` and the memory untouched. -/
def CPU.reset (s : CPU) : CPU :=
  { s with
    pc := 0xA4000040
    next_pc := 0xA4000040 + 4
    registers := fun _ => 0
    hi := 0
    lo := 0
    instructions_executed := 0
    cycles := 0
    branch_delay := false
    load_delay := false
    llbit := false
    exception_pending := false
    cop0 := cop0_init }

/-- `MIPSCPU.sign_extend_16`. -/
def sign_extend_16 (value : Nat) : Nat :=
  if value &&& 0x8000 ≠ 0 then value ||| 0xFFFF0000 else value

/-- `MIPSCPU.signed_word`. -/
def signed_word (value : Nat) : Int :=
  if value &&& 0x80000000 ≠ 0 then (value : Int) - 0x100000000 else (value : Int)

/-- `MIPSCPU.do_branch`. -/
def CPU.do_branch (s : CPU) (target : Nat) : CPU :=
  { s with delay_slot_pc := target &&& 0xFFFFFFFF, branch_delay := true }

/-- `MIPSCPU.trigger_exception`. -/
def CPU.trigger_exception (s : CPU) (code : Nat) : CPU :=
  let s := { s with exception_pending := true, exception_code := code }
  let s := { s with cop0 := cop0_write s.cop0 14 s.pc }
  let cause := cop0_read s.cop0 13
  let cause := pyAndNot cause 0x7C ||| ((code &&& 0x1F) <<< 2)
  let s := { s with cop0 := cop0_write s.cop0 13 cause }
  { s with pc := 0x80000180, next_pc := 0x80000180 + 4 }

/-- The if/elif chain of `MIPSCPU.execute_special` (R-type dispatch on the
funct field), without the final zero-register clamp. -/
def CPU.special_dispatch (s : CPU) (instr : Nat) : CPU :=
  let rs := (instr >>> 21) &&& 0x1F
  let rt := (instr >>> 16) &&& 0x1F
  let rd := (instr >>> 11) &&& 0x1F
  let shamt := (instr >>> 6) &&& 0x1F
  let funct := instr &&& 0x3F
  if funct = 0x00 then -- SLL
      { s with registers := upd s.registers rd ((s.registers rt <<< shamt) &&& 0xFFFFFFFF) }
    else if funct = 0x02 then -- SRL
      { s with registers := upd s.registers rd ((s.registers rt >>> shamt) &&& 0xFFFFFFFF) }
    else if funct = 0x03 then -- SRA
      { s with registers := upd s.registers rd (pyAnd32 (pyShr (signed_word (s.registers rt)) shamt)) }
    else if funct = 0x04 then -- SLLV
      { s with registers := upd s.registers rd ((s.registers rt <<< (s.registers rs &&& 0x1F)) &&& 0xFFFFFFFF) }
    else if funct = 0x06 then -- SRLV
      { s with registers := upd s.registers rd ((s.registers rt >>> (s.registers rs &&& 0x1F)) &&& 0xFFFFFFFF) }
    else if funct = 0x07 then -- SRAV
      { s with registers := upd s.registers rd (pyAnd32 (pyShr (signed_word (s.registers rt)) (s.registers rs &&& 0x1F))) }
    else if funct = 0x08 then -- JR
      s.do_branch (s.registers rs)
    else if funct = 0x09 then -- JALR
      let target := s.registers rs
      let s := { s with registers := upd s.registers rd (s.next_pc + 4) }
      s.do_branch target
    else if funct = 0x0C then -- SYSCALL
      s.trigger_exception 8
    else if funct = 0x0D then -- BREAK
      s.trigger_exception 9
    else if funct = 0x0F then -- SYNC
      s
    else if funct = 0x10 then -- MFHI
      { s with registers := upd s.registers rd s.hi }
    else if funct = 0x11 then -- MTHI
      { s with hi := s.registers rs }
    else if funct = 0x12 then -- MFLO
      { s with registers := upd s.registers rd s.lo }
    else if funct = 0x13 then -- MTLO
      { s with lo := s.registers rs }
    else if funct = 0x14 then -- DSLLV
      { s with registers := upd s.registers rd ((s.registers rt <<< (s.registers rs &&& 0x3F)) &&& 0xFFFFFFFF) }
    else if funct = 0x16 then -- DSRLV
      { s with registers := upd s.registers rd ((s.registers rt >>> (s.registers rs &&& 0x3F)) &&& 0xFFFFFFFF) }
    else if funct = 0x17 then -- DSRAV
      { s with registers := upd s.registers rd (pyAnd32 (pyShr (signed_word (s.registers rt)) (s.registers rs &&& 0x3F))) }
    else if funct = 0x18 then -- MULT
      let result := signed_word (s.registers rs) * signed_word (s.registers rt)
      { s with lo := pyAnd32 result, hi := pyAnd32 (pyShr result 32) }
    else if funct = 0x19 then -- MULTU
      let result := s.registers rs * s.registers rt
      { s with lo := result &&& 0xFFFFFFFF, hi := (result >>> 32) &&& 0xFFFFFFFF }
    else if funct = 0x1A then -- DIV
      let a := signed_word (s.registers rs)
      let b := signed_word (s.registers rt)
      if b ≠ 0 then { s with lo := pyAnd32 (Int.fdiv a b), hi := pyAnd32 (Int.fmod a b) } else s
    else if funct = 0x1B then -- DIVU
      if s.registers rt ≠ 0 then
        { s with lo := (s.registers rs / s.registers rt) &&& 0xFFFFFFFF, hi := (s.registers rs % s.registers rt) &&& 0xFFFFFFFF }
      else s
    else if funct = 0x1C then -- DMULT (same 32-bit truncation as MULT)
      let result := signed_word (s.registers rs) * signed_word (s.registers rt)
      { s with lo := pyAnd32 result, hi := pyAnd32 (pyShr result 32) }
    else if funct = 0x1D then -- DMULTU
      let result := s.registers rs * s.registers rt
      { s with lo := result &&& 0xFFFFFFFF, hi := (result >>> 32) &&& 0xFFFFFFFF }
    else if funct = 0x1E then -- DDIV
      let a := signed_word (s.registers rs)
      let b := signed_word (s.registers rt)
      if b ≠ 0 then { s with lo := pyAnd32 (Int.fdiv a b), hi := pyAnd32 (Int.fmod a b) } else s
    else if funct = 0x1F then -- DDIVU
      if s.registers rt ≠ 0 then
        { s with lo := (s.registers rs / s.registers rt) &&& 0xFFFFFFFF, hi := (s.registers rs % s.registers rt) &&& 0xFFFFFFFF }
      else s
    else if funct = 0x20 then -- ADD
      { s with registers := upd s.registers rd ((s.registers rs + s.registers rt) &&& 0xFFFFFFFF) }
    else if funct = 0x21 then -- ADDU
      { s with registers := upd s.registers rd ((s.registers rs + s.registers rt) &&& 0xFFFFFFFF) }
    else if funct = 0x22 then -- SUB
      { s with registers := upd s.registers rd (pyAnd32 ((s.registers rs : Int) - (s.registers rt : Int))) }
    else if funct = 0x23 then -- SUBU
      { s with registers := upd s.registers rd (pyAnd32 ((s.registers rs : Int) - (s.registers rt : Int))) }
    else if funct = 0x24 then -- AND
      { s with registers := upd s.registers rd (s.registers rs &&& s.registers rt) }
    else if funct = 0x25 then -- OR
      { s with registers := upd s.registers rd (s.registers rs ||| s.registers rt) }
    else if funct = 0x26 then -- XOR
      { s with registers := upd s.registers rd (s.registers rs ^^^ s.registers rt) }
    else if funct = 0x27 then -- NOR
      { s with registers := upd s.registers rd (pyNot32 (s.registers rs ||| s.registers rt)) }
    else if funct = 0x2A then -- SLT
      { s with registers := upd s.registers rd (if signed_word (s.registers rs) < signed_word (s.registers rt) then 1 else 0) }
    else if funct = 0x2B then -- SLTU
      { s with registers := upd s.registers rd (if s.registers rs < s.registers rt then 1 else 0) }
    else if funct = 0x2C then -- DADD
      { s with registers := upd s.registers rd ((s.registers rs + s.registers rt) &&& 0xFFFFFFFF) }
    else if funct = 0x2D then -- DADDU
      { s with registers := upd s.registers rd ((s.registers rs + s.registers rt) &&& 0xFFFFFFFF) }
    else if funct = 0x2E then -- DSUB
      { s with registers := upd s.registers rd (pyAnd32 ((s.registers rs : Int) - (s.registers rt : Int))) }
    else if funct = 0x2F then -- DSUBU
      { s with registers := upd s.registers rd (pyAnd32 ((s.registers rs : Int) - (s.registers rt : Int))) }
    else if funct = 0x38 then -- DSLL
      { s with registers := upd s.registers rd ((s.registers rt <<< shamt) &&& 0xFFFFFFFF) }
    else if funct = 0x3A then -- DSRL
      { s with registers := upd s.registers rd ((s.registers rt >>> shamt) &&& 0xFFFFFFFF) }
    else if funct = 0x3B then -- DSRA
      { s with registers := upd s.registers rd (pyAnd32 (pyShr (signed_word (s.registers rt)) shamt)) }
    else if funct = 0x3C then -- DSLL32
      { s with registers := upd s.registers rd ((s.registers rt <<< (shamt + 32)) &&& 0xFFFFFFFF) }
    else if funct = 0x3E then -- DSRL32
      { s with registers := upd s.registers rd ((s.registers rt >>> (shamt + 32)) &&& 0xFFFFFFFF) }
    else if funct = 0x3F then -- DSRA32
      { s with registers := upd s.registers rd (pyAnd32 (pyShr (signed_word (s.registers rt)) (shamt + 32))) }
    else s

/-- `MIPSCPU.execute_special`: the funct dispatch chain followed by the
unconditional `self.registers[0] = 0` clamp at the end of the method. -/
def CPU.execute_special (s : CPU) (instr : Nat) : CPU :=
  let t := s.special_dispatch instr
  { t with registers := upd t.registers 0 0 }

/-- `MIPSCPU.execute_regimm` (conditional branches selected by the rt field). -/
def CPU.execute_regimm (s : CPU) (instr : Nat) : CPU :=
  let rs := (instr >>> 21) &&& 0x1F
  let rt := (instr >>> 16) &&& 0x1F
  let offset := sign_extend_16 (instr &&& 0xFFFF) <<< 2
  if rt = 0x00 then -- BLTZ
    if signed_word (s.registers rs) < 0 then s.do_branch (s.next_pc + offset) else s
  else if rt = 0x01 then -- BGEZ
    if 0 ≤ signed_word (s.registers rs) then s.do_branch (s.next_pc + offset) else s
  else if rt = 0x10 then -- BLTZAL
    if signed_word (s.registers rs) < 0 then
      ({ s with registers := upd s.registers 31 (s.next_pc + 4) } : CPU).do_branch (s.next_pc + offset)
    else s
  else if rt = 0x11 then -- BGEZAL
    if 0 ≤ signed_word (s.registers rs) then
      ({ s with registers := upd s.registers 31 (s.next_pc + 4) } : CPU).do_branch (s.next_pc + offset)
    else s
  else s

/-- `MIPSCPU.execute_cop0` (MFC0/MTC0, inert TLB ops and ERET). -/
def CPU.execute_cop0 (s : CPU) (instr : Nat) : CPU :=
  let rs := (instr >>> 21) &&& 0x1F
  let rt := (instr >>> 16) &&& 0x1F
  let rd := (instr >>> 11) &&& 0x1F
  let funct := instr &&& 0x3F
  if rs = 0x00 then -- MFC0
    { s with registers := upd s.registers rt (cop0_read s.cop0 rd) }
  else if rs = 0x04 then -- MTC0
    { s with cop0 := cop0_write s.cop0 rd (s.registers rt) }
  else if rs = 0x10 then -- CO
    if funct = 0x18 then -- ERET
      let s := { s with pc := cop0_read s.cop0 14 }
      let s := { s with next_pc := s.pc + 4 }
      { s with cop0 := cop0_write s.cop0 12 (pyAndNot (cop0_read s.cop0 12) 0x2) }
    else s -- TLBR/TLBWI/TLBWR/TLBP are inert
  else s

/-- The opcode if/elif chain of `MIPSCPU.execute_instruction`, without the
final zero-register clamp. -/
def CPU.instr_dispatch (s : CPU) (instr : Nat) : CPU :=
  let opcode := (instr >>> 26) &&& 0x3F
  let rs := (instr >>> 21) &&& 0x1F
  let rt := (instr >>> 16) &&& 0x1F
  if opcode = 0x00 then s.execute_special instr
    else if opcode = 0x01 then s.execute_regimm instr
    else if opcode = 0x10 then s.execute_cop0 instr
    else if opcode = 0x11 then s -- COP1 stub
    else if opcode = 0x02 then -- J
      s.do_branch ((s.pc &&& 0xF0000000) ||| ((instr &&& 0x3FFFFFF) <<< 2))
    else if opcode = 0x03 then -- JAL
      ({ s with registers := upd s.registers 31 (s.next_pc + 4) } : CPU).do_branch ((s.pc &&& 0xF0000000) ||| ((instr &&& 0x3FFFFFF) <<< 2))
    else if opcode = 0x04 then -- BEQ
      if s.registers rs = s.registers rt then
        s.do_branch (s.next_pc + (sign_extend_16 (instr &&& 0xFFFF) <<< 2))
      else s
    else if opcode = 0x05 then -- BNE
      if s.registers rs ≠ s.registers rt then
        s.do_branch (s.next_pc + (sign_extend_16 (instr &&& 0xFFFF) <<< 2))
      else s
    else if opcode = 0x06 then -- BLEZ
      if signed_word (s.registers rs) ≤ 0 then
        s.do_branch (s.next_pc + (sign_extend_16 (instr &&& 0xFFFF) <<< 2))
      else s
    else if opcode = 0x07 then -- BGTZ
      if 0 < signed_word (s.registers rs) then
        s.do_branch (s.next_pc + (sign_extend_16 (instr &&& 0xFFFF) <<< 2))
      else s
    else if opcode = 0x08 then -- ADDI
      { s with registers := upd s.registers rt ((s.registers rs + sign_extend_16 (instr &&& 0xFFFF)) &&& 0xFFFFFFFF) }
    else if opcode = 0x09 then -- ADDIU
      { s with registers := upd s.registers rt ((s.registers rs + sign_extend_16 (instr &&& 0xFFFF)) &&& 0xFFFFFFFF) }
    else if opcode = 0x0A then -- SLTI (immediate compared as the raw sign-extended Nat)
      { s with registers := upd s.registers rt (if signed_word (s.registers rs) < (sign_extend_16 (instr &&& 0xFFFF) : Int) then 1 else 0) }
    else if opcode = 0x0B then -- SLTIU
      { s with registers := upd s.registers rt (if s.registers rs < (sign_extend_16 (instr &&& 0xFFFF) &&& 0xFFFFFFFF) then 1 else 0) }
    else if opcode = 0x0C then -- ANDI
      { s with registers := upd s.registers rt (s.registers rs &&& (instr &&& 0xFFFF)) }
    else if opcode = 0x0D then -- ORI
      { s with registers := upd s.registers rt (s.registers rs ||| (instr &&& 0xFFFF)) }
    else if opcode = 0x0E then -- XORI
      { s with registers := upd s.registers rt (s.registers rs ^^^ (instr &&& 0xFFFF)) }
    else if opcode = 0x0F then -- LUI
      { s with registers := upd s.registers rt (((instr &&& 0xFFFF) <<< 16) &&& 0xFFFFFFFF) }
    else if opcode = 0x18 then -- DADDI
      { s with registers := upd s.registers rt ((s.registers rs + sign_extend_16 (instr &&& 0xFFFF)) &&& 0xFFFFFFFF) }
    else if opcode = 0x19 then -- DADDIU
      { s with registers := upd s.registers rt ((s.registers rs + sign_extend_16 (instr &&& 0xFFFF)) &&& 0xFFFFFFFF) }
    else if opcode = 0x20 then -- LB
      let addr := (s.registers rs + sign_extend_16 (instr &&& 0xFFFF)) &&& 0xFFFFFFFF
      let value := s.mem.read_byte addr
      let value := if value &&& 0x80 ≠ 0 then value ||| 0xFFFFFF00 else value
      { s with registers := upd s.registers rt (value &&& 0xFFFFFFFF) }
    else if opcode = 0x21 then -- LH
      let addr := (s.registers rs + sign_extend_16 (instr &&& 0xFFFF)) &&& 0xFFFFFFFF
      let value := s.mem.read_half addr
      let value := if value &&& 0x8000 ≠ 0 then value ||| 0xFFFF0000 else value
      { s with registers := upd s.registers rt (value &&& 0xFFFFFFFF) }
    else if opcode = 0x23 then -- LW
      let addr := (s.registers rs + sign_extend_16 (instr &&& 0xFFFF)) &&& 0xFFFFFFFF
      { s with registers := upd s.registers rt (s.mem.read_word addr) }
    else if opcode = 0x24 then -- LBU
      let addr := (s.registers rs + sign_extend_16 (instr &&& 0xFFFF)) &&& 0xFFFFFFFF
      { s with registers := upd s.registers rt (s.mem.read_byte addr) }
    else if opcode = 0x25 then -- LHU
      let addr := (s.registers rs + sign_extend_16 (instr &&& 0xFFFF)) &&& 0xFFFFFFFF
      { s with registers := upd s.registers rt (s.mem.read_half addr) }
    else if opcode = 0x26 then -- LWR
      let addr := (s.registers rs + sign_extend_16 (instr &&& 0xFFFF)) &&& 0xFFFFFFFF
      let shift := (addr &&& 3) * 8
      let word := s.mem.read_word (pyAndNot addr 3)
      let mask := (1 <<< shift) - 1
      { s with registers := upd s.registers rt (pyAndNot (s.registers rt) mask ||| (word &&& mask)) }
    else if opcode = 0x27 then -- LWU
      let addr := (s.registers rs + sign_extend_16 (instr &&& 0xFFFF)) &&& 0xFFFFFFFF
      { s with registers := upd s.registers rt (s.mem.read_word addr) }
    else if opcode = 0x28 then -- SB
      let addr := (s.registers rs + sign_extend_16 (instr &&& 0xFFFF)) &&& 0xFFFFFFFF
      { s with mem := s.mem.write_byte addr (s.registers rt &&& 0xFF) }
    else if opcode = 0x29 then -- SH
      let addr := (s.registers rs + sign_extend_16 (instr &&& 0xFFFF)) &&& 0xFFFFFFFF
      { s with mem := s.mem.write_half addr (s.registers rt &&& 0xFFFF) }
    else if opcode = 0x2B then -- SW
      let addr := (s.registers rs + sign_extend_16 (instr &&& 0xFFFF)) &&& 0xFFFFFFFF
      { s with mem := s.mem.write_word addr (s.registers rt) }
    else if opcode = 0x30 then -- LL
      let addr := (s.registers rs + sign_extend_16 (instr &&& 0xFFFF)) &&& 0xFFFFFFFF
      { s with registers := upd s.registers rt (s.mem.read_word addr), llbit := true, lladdr := addr }
    else if opcode = 0x38 then -- SC
      let addr := (s.registers rs + sign_extend_16 (instr &&& 0xFFFF)) &&& 0xFFFFFFFF
      if s.llbit = true ∧ addr = s.lladdr then
        { s with mem := s.mem.write_word addr (s.registers rt), registers := upd s.registers rt 1, llbit := false }
      else
        { s with registers := upd s.registers rt 0, llbit := false }
    else if opcode = 0x2F then -- CACHE
      s
    else s

/-- `MIPSCPU.execute_instruction`: the opcode dispatch chain followed by the
unconditional `self.registers[0] = 0` clamp (`# Keep $zero always 0`). -/
def CPU.execute_instruction (s : CPU) (instr : Nat) : CPU :=
  let t := s.instr_dispatch instr
  { t with registers := upd t.registers 0 0 }

/-- `MIPSCPU.step`: one instruction, exactly in the order of the source:
pending load-delay commit, fetch, execute, PC update (a pending branch-delay
target wins over `next_pc`), counters, COP0 Count update every other cycle,
timer-compare check. -/
def CPU.step (s : CPU) : CPU :=
  if s.running = false then s
  else
    let s := if s.load_delay = true then
        { s with registers := upd s.registers s.load_reg s.load_value, load_delay := false }
      else s
    let instr := s.mem.read_word s.pc
    let s := s.execute_instruction instr
    let s := if s.branch_delay = true then
        { s with pc := s.delay_slot_pc, branch_delay := false }
      else { s with pc := s.next_pc }
    let s := { s with next_pc := s.pc + 4 }
    let s := { s with instructions_executed := s.instructions_executed + 1, cycles := s.cycles + 1 }
    let s := if s.cycles % 2 = 0 then
        { s with cop0 := cop0_write s.cop0 9 ((cop0_read s.cop0 9 + 1) &&& 0xFFFFFFFF) }
      else s
    if cop0_read s.cop0 9 = cop0_read s.cop0 11 then
      { s with cop0 := upd s.cop0 13 (s.cop0 13 ||| 0x8000) }
    else s

/-! ## Save states (MIPSEMU.save_state / MIPSEMU.load_state) -/

/-- The persisted save-state record: `{pc, next_pc, registers, hi, lo,
cop0 registers, RAM image, cycles}`.  The Python code serialises the RAM
image through `bytes.hex` / `bytearray.fromhex`, an exact round trip;
the record here carries the image itself. -/
structure SaveState where
  pc : Nat
  next_pc : Nat
  registers : Nat → Nat
  hi : Nat
  lo : Nat
  cop0 : Nat → Nat
  ram : Nat → Nat
  cycles : Nat

/-- `MIPSEMU.save_state`: capture the record from the live CPU/memory. -/
def save_state (s : CPU) : SaveState :=
  { pc := s.pc, next_pc := s.next_pc, registers := s.registers, hi := s.hi, lo := s.lo, cop0 := s.cop0, ram := s.mem.rdram, cycles := s.cycles }

/-- `MIPSEMU.load_state`: restore exactly the captured fields into the live
CPU/memory; everything else (ROM, save RAM, device registers, the remaining
CPU flags) is untouched. -/
def load_state (s : CPU) (st : SaveState) : CPU :=
  { s with pc := st.pc, next_pc := st.next_pc, registers := st.registers, hi := st.hi, lo := st.lo, cop0 := st.cop0, mem := { s.mem with rdram := st.ram }, cycles := st.cycles }

/-- The states of a CPU reachable through the public driver API: a fresh
`MIPSCPU(memory)`, `step()`, `reset()`, the driver's `running` toggle, the
driver's boot-address assignment (`self.cpu.pc = boot_address`), and
save-state restore. -/
inductive Reachable : CPU → Prop where
  | init : ∀ m, Reachable (CPU.init m)
  | step : ∀ s, Reachable s → Reachable s.step
  | reset : ∀ s, Reachable s → Reachable s.reset
  | setRunning : ∀ s b, Reachable s → Reachable { s with running := b }
  | setPC : ∀ s a, Reachable s → Reachable { s with pc := a }
  | restore : ∀ s st, Reachable s → Reachable (load_state s st)


/-! ## Concrete machines and side conditions used by the claims -/

/-- Side condition under which the ROM fast word path and the byte-composed
path agree at `addr` in the ROM window ending at `wend`: no ROM is loaded,
or the word lies entirely beyond the image, or it lies entirely inside both
the image and the address window. -/
def romPathOK (m : Memory) (addr wend : Nat) : Prop :=
  m.rom = none ∨ m.rom_size ≤ (addr &&& 0x0FFFFFFF) ∨
    ((addr &&& 0x0FFFFFFF) + 3 < m.rom_size ∧ addr + 3 < wend)

/-- Memory with SRAM byte 0 set to 1 (stored through the SRAM window). -/
def sramMem : Memory := Memory.init.write_byte 0x08000000 1

/-- RAM holding: `BEQ r0,r0,+3` at address 0 (always taken, target 16),
`ORI r1,r0,7` in the would-be delay slot at address 4, and `ORI r2,r0,9` at
the branch target 16. -/
def branchScenarioMem : Memory :=
  ((Memory.init.write_word 0 0x10000003).write_word 4 0x34010007).write_word 16 0x34020009

/-- A running CPU about to execute the branch at address 0. -/
def branchScenario : CPU :=
  { CPU.init branchScenarioMem with pc := 0, next_pc := 4, running := true }

/-- RAM holding a single `SYSCALL` at address 0. -/
def syscallScenario : CPU :=
  { CPU.init (Memory.init.write_word 0 0x0000000C) with pc := 0, next_pc := 4, running := true }

/-- RAM holding a single `BREAK` at address 0. -/
def breakScenario : CPU :=
  { CPU.init (Memory.init.write_word 0 0x0000000D) with pc := 0, next_pc := 4, running := true }

/-- RAM holding a single `ERET` (0x42000018) at address 0; EPC = 0x1000 and
Status = 0x34000002 (EXL bit 1 set). -/
def eretScenario : CPU :=
  { CPU.init (Memory.init.write_word 0 0x42000018) with pc := 0, next_pc := 4, running := true, cop0 := upd (upd cop0_init 14 0x1000) 12 0x34000002 }

/-- A CPU with the link bit set and address 0x100 recorded, as left by an
`LL` at 0x100. -/
def scLinkState : CPU :=
  { CPU.init Memory.init with llbit := true, lladdr := 0x100 }

/-- A 65-byte byte-swapped (v64) image: the v64 magic followed by zeros. -/
def v64OddImage : List Nat := [0x37, 0x80, 0x40, 0x12] ++ List.replicate 61 0

/-- A minimal big-endian image: the z64 magic followed by 60 zero bytes. -/
def z64Image : List Nat := [0x80, 0x37, 0x12, 0x40] ++ List.replicate 60 0

/-! ## Helper lemmas -/

/-- Masking with an all-ones pattern is reduction modulo the corresponding
power of two. -/
theorem and_mask_mod (x n : Nat) : x &&& (2 ^ n - 1) = x % 2 ^ n :=
  Nat.and_pow_two_sub_one_eq_mod x n

theorem and32_mod (x : Nat) : x &&& 0xFFFFFFFF = x % 0x100000000 := by
  have h := and_mask_mod x 32; norm_num at h; exact h

theorem and23_mod (x : Nat) : x &&& 0x7FFFFF = x % 0x800000 := by
  have h := and_mask_mod x 23; norm_num at h; exact h

theorem and28_mod (x : Nat) : x &&& 0x0FFFFFFF = x % 0x10000000 := by
  have h := and_mask_mod x 28; norm_num at h; exact h

/-- `x & ~0x8000` on a non-negative int keeps the low 15 bits and everything
from bit 16 up, and zeroes bit 15. -/
theorem pyAndNot_8000 (x : Nat) :
    pyAndNot x 0x8000 = x % 0x8000 + 0x10000 * (x / 0x10000) := by
  have h := Nat.and_two_pow x 15
  norm_num at h
  have hb := @Nat.testBit_to_div_mod 15 x
  norm_num at hb
  rw [pyAndNot, h]
  rcases Bool.eq_false_or_eq_true (x.testBit 15) with hc | hc <;>
    rw [hc] at hb ⊢ <;> simp at hb ⊢ <;> omega

/-- The zero-register clamp at the end of `execute_instruction`. -/
theorem exec_registers_zero (s : CPU) (i : Nat) :
    (s.execute_instruction i).registers 0 = 0 := by
  simp [CPU.execute_instruction, upd]

/-- The funct dispatch chain never touches the load-delay flag. -/
theorem special_dispatch_load_delay (s : CPU) (i : Nat) :
    (s.special_dispatch i).load_delay = s.load_delay := by
  simp only [CPU.special_dispatch]
  by_cases h0 : i &&& 0x3F = 0x0
  · rw [if_pos h0] <;> first | rfl | (split <;> rfl)
  rw [if_neg h0]
  by_cases h1 : i &&& 0x3F = 0x2
  · rw [if_pos h1] <;> first | rfl | (split <;> rfl)
  rw [if_neg h1]
  by_cases h2 : i &&& 0x3F = 0x3
  · rw [if_pos h2] <;> first | rfl | (split <;> rfl)
  rw [if_neg h2]
  by_cases h3 : i &&& 0x3F = 0x4
  · rw [if_pos h3] <;> first | rfl | (split <;> rfl)
  rw [if_neg h3]
  by_cases h4 : i &&& 0x3F = 0x6
  · rw [if_pos h4] <;> first | rfl | (split <;> rfl)
  rw [if_neg h4]
  by_cases h5 : i &&& 0x3F = 0x7
  · rw [if_pos h5] <;> first | rfl | (split <;> rfl)
  rw [if_neg h5]
  by_cases h6 : i &&& 0x3F = 0x8
  · rw [if_pos h6] <;> first | rfl | (split <;> rfl)
  rw [if_neg h6]
  by_cases h7 : i &&& 0x3F = 0x9
  · rw [if_pos h7] <;> first | rfl | (split <;> rfl)
  rw [if_neg h7]
  by_cases h8 : i &&& 0x3F = 0xc
  · rw [if_pos h8] <;> first | rfl | (split <;> rfl)
  rw [if_neg h8]
  by_cases h9 : i &&& 0x3F = 0xd
  · rw [if_pos h9] <;> first | rfl | (split <;> rfl)
  rw [if_neg h9]
  by_cases h10 : i &&& 0x3F = 0xf
  · rw [if_pos h10] <;> first | rfl | (split <;> rfl)
  rw [if_neg h10]
  by_cases h11 : i &&& 0x3F = 0x10
  · rw [if_pos h11] <;> first | rfl | (split <;> rfl)
  rw [if_neg h11]
  by_cases h12 : i &&& 0x3F = 0x11
  · rw [if_pos h12] <;> first | rfl | (split <;> rfl)
  rw [if_neg h12]
  by_cases h13 : i &&& 0x3F = 0x12
  · rw [if_pos h13] <;> first | rfl | (split <;> rfl)
  rw [if_neg h13]
  by_cases h14 : i &&& 0x3F = 0x13
  · rw [if_pos h14] <;> first | rfl | (split <;> rfl)
  rw [if_neg h14]
  by_cases h15 : i &&& 0x3F = 0x14
  · rw [if_pos h15] <;> first | rfl | (split <;> rfl)
  rw [if_neg h15]
  by_cases h16 : i &&& 0x3F = 0x16
  · rw [if_pos h16] <;> first | rfl | (split <;> rfl)
  rw [if_neg h16]
  by_cases h17 : i &&& 0x3F = 0x17
  · rw [if_pos h17] <;> first | rfl | (split <;> rfl)
  rw [if_neg h17]
  by_cases h18 : i &&& 0x3F = 0x18
  · rw [if_pos h18] <;> first | rfl | (split <;> rfl)
  rw [if_neg h18]
  by_cases h19 : i &&& 0x3F = 0x19
  · rw [if_pos h19] <;> first | rfl | (split <;> rfl)
  rw [if_neg h19]
  by_cases h20 : i &&& 0x3F = 0x1a
  · rw [if_pos h20] <;> first | rfl | (split <;> rfl)
  rw [if_neg h20]
  by_cases h21 : i &&& 0x3F = 0x1b
  · rw [if_pos h21] <;> first | rfl | (split <;> rfl)
  rw [if_neg h21]
  by_cases h22 : i &&& 0x3F = 0x1c
  · rw [if_pos h22] <;> first | rfl | (split <;> rfl)
  rw [if_neg h22]
  by_cases h23 : i &&& 0x3F = 0x1d
  · rw [if_pos h23] <;> first | rfl | (split <;> rfl)
  rw [if_neg h23]
  by_cases h24 : i &&& 0x3F = 0x1e
  · rw [if_pos h24] <;> first | rfl | (split <;> rfl)
  rw [if_neg h24]
  by_cases h25 : i &&& 0x3F = 0x1f
  · rw [if_pos h25] <;> first | rfl | (split <;> rfl)
  rw [if_neg h25]
  by_cases h26 : i &&& 0x3F = 0x20
  · rw [if_pos h26] <;> first | rfl | (split <;> rfl)
  rw [if_neg h26]
  by_cases h27 : i &&& 0x3F = 0x21
  · rw [if_pos h27] <;> first | rfl | (split <;> rfl)
  rw [if_neg h27]
  by_cases h28 : i &&& 0x3F = 0x22
  · rw [if_pos h28] <;> first | rfl | (split <;> rfl)
  rw [if_neg h28]
  by_cases h29 : i &&& 0x3F = 0x23
  · rw [if_pos h29] <;> first | rfl | (split <;> rfl)
  rw [if_neg h29]
  by_cases h30 : i &&& 0x3F = 0x24
  · rw [if_pos h30] <;> first | rfl | (split <;> rfl)
  rw [if_neg h30]
  by_cases h31 : i &&& 0x3F = 0x25
  · rw [if_pos h31] <;> first | rfl | (split <;> rfl)
  rw [if_neg h31]
  by_cases h32 : i &&& 0x3F = 0x26
  · rw [if_pos h32] <;> first | rfl | (split <;> rfl)
  rw [if_neg h32]
  by_cases h33 : i &&& 0x3F = 0x27
  · rw [if_pos h33] <;> first | rfl | (split <;> rfl)
  rw [if_neg h33]
  by_cases h34 : i &&& 0x3F = 0x2a
  · rw [if_pos h34] <;> first | rfl | (split <;> rfl)
  rw [if_neg h34]
  by_cases h35 : i &&& 0x3F = 0x2b
  · rw [if_pos h35] <;> first | rfl | (split <;> rfl)
  rw [if_neg h35]
  by_cases h36 : i &&& 0x3F = 0x2c
  · rw [if_pos h36] <;> first | rfl | (split <;> rfl)
  rw [if_neg h36]
  by_cases h37 : i &&& 0x3F = 0x2d
  · rw [if_pos h37] <;> first | rfl | (split <;> rfl)
  rw [if_neg h37]
  by_cases h38 : i &&& 0x3F = 0x2e
  · rw [if_pos h38] <;> first | rfl | (split <;> rfl)
  rw [if_neg h38]
  by_cases h39 : i &&& 0x3F = 0x2f
  · rw [if_pos h39] <;> first | rfl | (split <;> rfl)
  rw [if_neg h39]
  by_cases h40 : i &&& 0x3F = 0x38
  · rw [if_pos h40] <;> first | rfl | (split <;> rfl)
  rw [if_neg h40]
  by_cases h41 : i &&& 0x3F = 0x3a
  · rw [if_pos h41] <;> first | rfl | (split <;> rfl)
  rw [if_neg h41]
  by_cases h42 : i &&& 0x3F = 0x3b
  · rw [if_pos h42] <;> first | rfl | (split <;> rfl)
  rw [if_neg h42]
  by_cases h43 : i &&& 0x3F = 0x3c
  · rw [if_pos h43] <;> first | rfl | (split <;> rfl)
  rw [if_neg h43]
  by_cases h44 : i &&& 0x3F = 0x3e
  · rw [if_pos h44] <;> first | rfl | (split <;> rfl)
  rw [if_neg h44]
  by_cases h45 : i &&& 0x3F = 0x3f
  · rw [if_pos h45] <;> first | rfl | (split <;> rfl)
  rw [if_neg h45]

/-- `execute_special` never touches the load-delay flag. -/
theorem special_load_delay (s : CPU) (i : Nat) :
    (s.execute_special i).load_delay = s.load_delay := by
  simp only [CPU.execute_special]
  exact special_dispatch_load_delay s i

/-- `execute_regimm` never touches the load-delay flag. -/
theorem regimm_load_delay (s : CPU) (i : Nat) :
    (s.execute_regimm i).load_delay = s.load_delay := by
  simp only [CPU.execute_regimm]
  repeat' split
  all_goals rfl

/-- `execute_cop0` never touches the load-delay flag. -/
theorem cop0_load_delay (s : CPU) (i : Nat) :
    (s.execute_cop0 i).load_delay = s.load_delay := by
  simp only [CPU.execute_cop0]
  repeat' split
  all_goals rfl

/-- The opcode dispatch chain never touches the load-delay flag. -/
theorem instr_dispatch_load_delay (s : CPU) (i : Nat) :
    (s.instr_dispatch i).load_delay = s.load_delay := by
  simp only [CPU.instr_dispatch]
  by_cases h0 : i >>> 26 &&& 0x3F = 0x0
  · rw [if_pos h0] <;> first | rfl | (split <;> rfl) | exact special_load_delay s i | exact regimm_load_delay s i | exact cop0_load_delay s i
  rw [if_neg h0]
  by_cases h1 : i >>> 26 &&& 0x3F = 0x1
  · rw [if_pos h1] <;> first | rfl | (split <;> rfl) | exact special_load_delay s i | exact regimm_load_delay s i | exact cop0_load_delay s i
  rw [if_neg h1]
  by_cases h2 : i >>> 26 &&& 0x3F = 0x10
  · rw [if_pos h2] <;> first | rfl | (split <;> rfl) | exact special_load_delay s i | exact regimm_load_delay s i | exact cop0_load_delay s i
  rw [if_neg h2]
  by_cases h3 : i >>> 26 &&& 0x3F = 0x11
  · rw [if_pos h3] <;> first | rfl | (split <;> rfl) | exact special_load_delay s i | exact regimm_load_delay s i | exact cop0_load_delay s i
  rw [if_neg h3]
  by_cases h4 : i >>> 26 &&& 0x3F = 0x2
  · rw [if_pos h4] <;> first | rfl | (split <;> rfl) | exact special_load_delay s i | exact regimm_load_delay s i | exact cop0_load_delay s i
  rw [if_neg h4]
  by_cases h5 : i >>> 26 &&& 0x3F = 0x3
  · rw [if_pos h5] <;> first | rfl | (split <;> rfl) | exact special_load_delay s i | exact regimm_load_delay s i | exact cop0_load_delay s i
  rw [if_neg h5]
  by_cases h6 : i >>> 26 &&& 0x3F = 0x4
  · rw [if_pos h6] <;> first | rfl | (split <;> rfl) | exact special_load_delay s i | exact regimm_load_delay s i | exact cop0_load_delay s i
  rw [if_neg h6]
  by_cases h7 : i >>> 26 &&& 0x3F = 0x5
  · rw [if_pos h7] <;> first | rfl | (split <;> rfl) | exact special_load_delay s i | exact regimm_load_delay s i | exact cop0_load_delay s i
  rw [if_neg h7]
  by_cases h8 : i >>> 26 &&& 0x3F = 0x6
  · rw [if_pos h8] <;> first | rfl | (split <;> rfl) | exact special_load_delay s i | exact regimm_load_delay s i | exact cop0_load_delay s i
  rw [if_neg h8]
  by_cases h9 : i >>> 26 &&& 0x3F = 0x7
  · rw [if_pos h9] <;> first | rfl | (split <;> rfl) | exact special_load_delay s i | exact regimm_load_delay s i | exact cop0_load_delay s i
  rw [if_neg h9]
  by_cases h10 : i >>> 26 &&& 0x3F = 0x8
  · rw [if_pos h10] <;> first | rfl | (split <;> rfl) | exact special_load_delay s i | exact regimm_load_delay s i | exact cop0_load_delay s i
  rw [if_neg h10]
  by_cases h11 : i >>> 26 &&& 0x3F = 0x9
  · rw [if_pos h11] <;> first | rfl | (split <;> rfl) | exact special_load_delay s i | exact regimm_load_delay s i | exact cop0_load_delay s i
  rw [if_neg h11]
  by_cases h12 : i >>> 26 &&& 0x3F = 0xa
  · rw [if_pos h12] <;> first | rfl | (split <;> rfl) | exact special_load_delay s i | exact regimm_load_delay s i | exact cop0_load_delay s i
  rw [if_neg h12]
  by_cases h13 : i >>> 26 &&& 0x3F = 0xb
  · rw [if_pos h13] <;> first | rfl | (split <;> rfl) | exact special_load_delay s i | exact regimm_load_delay s i | exact cop0_load_delay s i
  rw [if_neg h13]
  by_cases h14 : i >>> 26 &&& 0x3F = 0xc
  · rw [if_pos h14] <;> first | rfl | (split <;> rfl) | exact special_load_delay s i | exact regimm_load_delay s i | exact cop0_load_delay s i
  rw [if_neg h14]
  by_cases h15 : i >>> 26 &&& 0x3F = 0xd
  · rw [if_pos h15] <;> first | rfl | (split <;> rfl) | exact special_load_delay s i | exact regimm_load_delay s i | exact cop0_load_delay s i
  rw [if_neg h15]
  by_cases h16 : i >>> 26 &&& 0x3F = 0xe
  · rw [if_pos h16] <;> first | rfl | (split <;> rfl) | exact special_load_delay s i | exact regimm_load_delay s i | exact cop0_load_delay s i
  rw [if_neg h16]
  by_cases h17 : i >>> 26 &&& 0x3F = 0xf
  · rw [if_pos h17] <;> first | rfl | (split <;> rfl) | exact special_load_delay s i | exact regimm_load_delay s i | exact cop0_load_delay s i
  rw [if_neg h17]
  by_cases h18 : i >>> 26 &&& 0x3F = 0x18
  · rw [if_pos h18] <;> first | rfl | (split <;> rfl) | exact special_load_delay s i | exact regimm_load_delay s i | exact cop0_load_delay s i
  rw [if_neg h18]
  by_cases h19 : i >>> 26 &&& 0x3F = 0x19
  · rw [if_pos h19] <;> first | rfl | (split <;> rfl) | exact special_load_delay s i | exact regimm_load_delay s i | exact cop0_load_delay s i
  rw [if_neg h19]
  by_cases h20 : i >>> 26 &&& 0x3F = 0x20
  · rw [if_pos h20] <;> first | rfl | (split <;> rfl) | exact special_load_delay s i | exact regimm_load_delay s i | exact cop0_load_delay s i
  rw [if_neg h20]
  by_cases h21 : i >>> 26 &&& 0x3F = 0x21
  · rw [if_pos h21] <;> first | rfl | (split <;> rfl) | exact special_load_delay s i | exact regimm_load_delay s i | exact cop0_load_delay s i
  rw [if_neg h21]
  by_cases h22 : i >>> 26 &&& 0x3F = 0x23
  · rw [if_pos h22] <;> first | rfl | (split <;> rfl) | exact special_load_delay s i | exact regimm_load_delay s i | exact cop0_load_delay s i
  rw [if_neg h22]
  by_cases h23 : i >>> 26 &&& 0x3F = 0x24
  · rw [if_pos h23] <;> first | rfl | (split <;> rfl) | exact special_load_delay s i | exact regimm_load_delay s i | exact cop0_load_delay s i
  rw [if_neg h23]
  by_cases h24 : i >>> 26 &&& 0x3F = 0x25
  · rw [if_pos h24] <;> first | rfl | (split <;> rfl) | exact special_load_delay s i | exact regimm_load_delay s i | exact cop0_load_delay s i
  rw [if_neg h24]
  by_cases h25 : i >>> 26 &&& 0x3F = 0x26
  · rw [if_pos h25] <;> first | rfl | (split <;> rfl) | exact special_load_delay s i | exact regimm_load_delay s i | exact cop0_load_delay s i
  rw [if_neg h25]
  by_cases h26 : i >>> 26 &&& 0x3F = 0x27
  · rw [if_pos h26] <;> first | rfl | (split <;> rfl) | exact special_load_delay s i | exact regimm_load_delay s i | exact cop0_load_delay s i
  rw [if_neg h26]
  by_cases h27 : i >>> 26 &&& 0x3F = 0x28
  · rw [if_pos h27] <;> first | rfl | (split <;> rfl) | exact special_load_delay s i | exact regimm_load_delay s i | exact cop0_load_delay s i
  rw [if_neg h27]
  by_cases h28 : i >>> 26 &&& 0x3F = 0x29
  · rw [if_pos h28] <;> first | rfl | (split <;> rfl) | exact special_load_delay s i | exact regimm_load_delay s i | exact cop0_load_delay s i
  rw [if_neg h28]
  by_cases h29 : i >>> 26 &&& 0x3F = 0x2b
  · rw [if_pos h29] <;> first | rfl | (split <;> rfl) | exact special_load_delay s i | exact regimm_load_delay s i | exact cop0_load_delay s i
  rw [if_neg h29]
  by_cases h30 : i >>> 26 &&& 0x3F = 0x30
  · rw [if_pos h30] <;> first | rfl | (split <;> rfl) | exact special_load_delay s i | exact regimm_load_delay s i | exact cop0_load_delay s i
  rw [if_neg h30]
  by_cases h31 : i >>> 26 &&& 0x3F = 0x38
  · rw [if_pos h31] <;> first | rfl | (split <;> rfl) | exact special_load_delay s i | exact regimm_load_delay s i | exact cop0_load_delay s i
  rw [if_neg h31]
  by_cases h32 : i >>> 26 &&& 0x3F = 0x2f
  · rw [if_pos h32] <;> first | rfl | (split <;> rfl) | exact special_load_delay s i | exact regimm_load_delay s i | exact cop0_load_delay s i
  rw [if_neg h32]

/-- No instruction path of `execute_instruction` sets or clears the
load-delay flag. -/
theorem exec_load_delay (s : CPU) (i : Nat) :
    (s.execute_instruction i).load_delay = s.load_delay := by
  simp only [CPU.execute_instruction]
  exact instr_dispatch_load_delay s i

/-! ## C5, C6, C7, C9 -/

/-- C5: executing DIV, DIVU, DDIV or DDIVU (SPECIAL funct 0x1A/0x1B/0x1E/0x1F)
with a zero divisor register leaves both HI and LO exactly at their
pre-instruction values; the embedding is total, so no fault is raised. -/
theorem div_zero_quiet (s : CPU) (instr : Nat)
    (hop : instr >>> 26 &&& 0x3F = 0x00)
    (hf : instr &&& 0x3F = 0x1A ∨ instr &&& 0x3F = 0x1B ∨
      instr &&& 0x3F = 0x1E ∨ instr &&& 0x3F = 0x1F)
    (hz : s.registers (instr >>> 16 &&& 0x1F) = 0) :
    (s.execute_instruction instr).hi = s.hi ∧ (s.execute_instruction instr).lo = s.lo := by
  have hd : s.instr_dispatch instr = s.execute_special instr := by
    simp [CPU.instr_dispatch, hop]
  have hs : s.special_dispatch instr = s := by
    rcases hf with hf | hf | hf | hf <;> simp [CPU.special_dispatch, hf, hz, signed_word]
  constructor <;> simp [CPU.execute_instruction, hd, CPU.execute_special, hs]

theorem div_zero_quiet_witness :
    ((CPU.init Memory.init).execute_instruction 0x0041001A).hi = (CPU.init Memory.init).hi ∧
    ((CPU.init Memory.init).execute_instruction 0x0041001A).lo = (CPU.init Memory.init).lo :=
  div_zero_quiet (CPU.init Memory.init) 0x0041001A (by decide) (Or.inl (by decide)) rfl

/-- C6: after any completed `step()` of a running CPU, general register 0
reads 0, whatever instruction was executed (the `registers[0] = 0` clamp at
the end of `execute_instruction` runs on every path, and the later stages of
`step()` never write general registers). -/
theorem register_zero_after_step (s : CPU) (h : s.running = true) :
    s.step.registers 0 = 0 := by
  simp only [CPU.step, h]
  norm_num
  repeat' split
  all_goals simp [exec_registers_zero]

theorem register_zero_after_step_witness :
    ({ CPU.init Memory.init with running := true } : CPU).step.registers 0 = 0 :=
  register_zero_after_step { CPU.init Memory.init with running := true } rfl

/-- C7: capturing a save state and restoring it onto any machine reproduces
the captured pc, next_pc, general registers, hi, lo, COP0 registers, RAM
image and cycle counter bit for bit, and leaves the target machine's ROM,
save-RAM stores and device register blocks untouched. -/
theorem save_load_roundtrip (s t : CPU) :
    (load_state t (save_state s)).pc = s.pc ∧
    (load_state t (save_state s)).next_pc = s.next_pc ∧
    (load_state t (save_state s)).registers = s.registers ∧
    (load_state t (save_state s)).hi = s.hi ∧
    (load_state t (save_state s)).lo = s.lo ∧
    (load_state t (save_state s)).cop0 = s.cop0 ∧
    (load_state t (save_state s)).mem.rdram = s.mem.rdram ∧
    (load_state t (save_state s)).cycles = s.cycles ∧
    (load_state t (save_state s)).mem.rom = t.mem.rom ∧
    (load_state t (save_state s)).mem.rom_size = t.mem.rom_size ∧
    (load_state t (save_state s)).mem.sram = t.mem.sram ∧
    (load_state t (save_state s)).mem.eeprom = t.mem.eeprom ∧
    (load_state t (save_state s)).mem.flashram = t.mem.flashram ∧
    (load_state t (save_state s)).mem.mi = t.mem.mi ∧
    (load_state t (save_state s)).mem.vi = t.mem.vi ∧
    (load_state t (save_state s)).mem.ai = t.mem.ai ∧
    (load_state t (save_state s)).mem.pi = t.mem.pi :=
  ⟨rfl, rfl, rfl, rfl, rfl, rfl, rfl, rfl, rfl, rfl, rfl, rfl, rfl, rfl, rfl, rfl, rfl⟩

/-- C9: the COP0 write policy.  Writing register index `reg` (taken mod 32 as
in the source) with value `v`: Index (0) stores `v &&& 0x3F`; Random (1)
changes nothing; Compare (11) stores `v` unmodified and clears bit 15 of
Cause (13) while keeping Cause's other bits (`x % 0x8000 + 0x10000 * (x /
0x10000)` is `x` with bit 15 zeroed); every other register stores `v`
unmodified; and in each case no register outside the stated set changes. -/
theorem cop0_write_policy (regs : Nat → Nat) (reg v : Nat) :
    (reg &&& 0x1F = 0 →
      cop0_write regs reg v 0 = v &&& 0x3F ∧
      ∀ j, j ≠ 0 → cop0_write regs reg v j = regs j) ∧
    (reg &&& 0x1F = 1 → ∀ j, cop0_write regs reg v j = regs j) ∧
    (reg &&& 0x1F = 11 →
      cop0_write regs reg v 11 = v ∧
      cop0_write regs reg v 13 = regs 13 % 0x8000 + 0x10000 * (regs 13 / 0x10000) ∧
      ∀ j, j ≠ 11 → j ≠ 13 → cop0_write regs reg v j = regs j) ∧
    (reg &&& 0x1F ≠ 0 → reg &&& 0x1F ≠ 1 → reg &&& 0x1F ≠ 11 →
      cop0_write regs reg v (reg &&& 0x1F) = v ∧
      ∀ j, j ≠ reg &&& 0x1F → cop0_write regs reg v j = regs j) := by
  refine ⟨?_, ?_, ?_, ?_⟩
  · intro h
    constructor
    · simp [cop0_write, h, upd]
    · intro j hj
      simp [cop0_write, h, upd, hj]
  · intro h j
    simp [cop0_write, h]
  · intro h
    refine ⟨?_, ?_, ?_⟩
    · simp [cop0_write, h, upd]
    · simp [cop0_write, h, upd, pyAndNot_8000]
    · intro j h11 h13
      simp [cop0_write, h, upd, h11, h13]
  · intro h0 h1 h11
    constructor
    · simp [cop0_write, h0, h1, h11, upd]
    · intro j hj
      simp [cop0_write, h0, h1, h11, upd, hj]

theorem cop0_write_policy_witness :
    cop0_write (fun _ => 0) 11 5 11 = 5 ∧
    cop0_write (fun _ => 0) 11 5 13 = 0 ∧
    ∀ j, j ≠ 11 → j ≠ 13 → cop0_write (fun _ => 0) 11 5 j = 0 :=
  (cop0_write_policy (fun _ => 0) 11 5).2.2.1 (by decide)

/-! ## C1, C2: concrete executions exhibiting the step()/PC interaction -/

/-- C1 (what the code actually does): the taken branch at address 0 with
target 16 redirects PC to 16 at the end of the same `step()` call; the
instruction at address 4 (the delay slot, `ORI r1,r0,7`) is never executed —
after the second step the CPU has executed the instruction at 16 instead
(r2 = 9) while r1 is still 0 and PC has advanced to 20. -/
theorem branch_redirect_same_step :
    branchScenarioMem.read_word 4 = 0x34010007 ∧
    branchScenario.step.pc = 16 ∧
    branchScenario.step.step.pc = 20 ∧
    branchScenario.step.step.registers 2 = 9 ∧
    branchScenario.step.step.registers 1 = 0 := by decide

/-- C2 (what the code actually does): `SYSCALL` at PC 0 sets EPC to 0 and
Cause bits 2-6 to 8 (`BREAK` sets them to 9), but when the `step()` call
completes PC is 0x80000184, not the vector 0x80000180 — the fetch-advance
`pc = next_pc; next_pc = pc + 4` at the end of `step()` overwrites the
vectored PC.  Likewise `ERET` clears Status bit 1 but ends the step with
PC = EPC + 4 = 0x1004, not EPC = 0x1000. -/
theorem exception_vector_overshoot :
    cop0_read syscallScenario.step.cop0 14 = 0 ∧
    (cop0_read syscallScenario.step.cop0 13 >>> 2) &&& 0x1F = 8 ∧
    syscallScenario.step.pc = 0x80000184 ∧
    (cop0_read breakScenario.step.cop0 13 >>> 2) &&& 0x1F = 9 ∧
    breakScenario.step.pc = 0x80000184 ∧
    eretScenario.step.pc = 0x1004 ∧
    cop0_read eretScenario.step.cop0 12 = 0x34000000 := by decide

/-! ## C4: LL/SC semantics -/

/-- C4: `LL` (opcode 0x30) sets the link bit, records the effective address
and loads the word there into rt; a subsequent `SC` (opcode 0x38) whose
effective address equals the recorded one writes rt's value to memory at
that address (through `write_word`) and sets rt to 1, while an `SC` at any
other address leaves memory unchanged and sets rt to 0; the link bit is
false after either outcome.  (Register conclusions are stated for rt ≠ 0,
register 0 being hardwired to 0.) -/
theorem ll_sc_semantics (s : CPU) (instr : Nat) :
    (instr >>> 26 &&& 0x3F = 0x30 →
      (s.execute_instruction instr).llbit = true ∧
      (s.execute_instruction instr).lladdr =
        (s.registers (instr >>> 21 &&& 0x1F) + sign_extend_16 (instr &&& 0xFFFF)) &&& 0xFFFFFFFF ∧
      (instr >>> 16 &&& 0x1F ≠ 0 →
        (s.execute_instruction instr).registers (instr >>> 16 &&& 0x1F) =
          s.mem.read_word
            ((s.registers (instr >>> 21 &&& 0x1F) + sign_extend_16 (instr &&& 0xFFFF)) &&& 0xFFFFFFFF))) ∧
    (instr >>> 26 &&& 0x3F = 0x38 → s.llbit = true →
      (s.registers (instr >>> 21 &&& 0x1F) + sign_extend_16 (instr &&& 0xFFFF)) &&& 0xFFFFFFFF = s.lladdr →
      (s.execute_instruction instr).mem =
        s.mem.write_word
          ((s.registers (instr >>> 21 &&& 0x1F) + sign_extend_16 (instr &&& 0xFFFF)) &&& 0xFFFFFFFF)
          (s.registers (instr >>> 16 &&& 0x1F)) ∧
      (instr >>> 16 &&& 0x1F ≠ 0 →
        (s.execute_instruction instr).registers (instr >>> 16 &&& 0x1F) = 1) ∧
      (s.execute_instruction instr).llbit = false) ∧
    (instr >>> 26 &&& 0x3F = 0x38 → s.llbit = true →
      (s.registers (instr >>> 21 &&& 0x1F) + sign_extend_16 (instr &&& 0xFFFF)) &&& 0xFFFFFFFF ≠ s.lladdr →
      (s.execute_instruction instr).mem = s.mem ∧
      (s.execute_instruction instr).registers (instr >>> 16 &&& 0x1F) = 0 ∧
      (s.execute_instruction instr).llbit = false) := by
  refine ⟨?_, ?_, ?_⟩
  · intro hop
    refine ⟨?_, ?_, ?_⟩
    · simp [CPU.execute_instruction, CPU.instr_dispatch, hop]
    · simp [CPU.execute_instruction, CPU.instr_dispatch, hop]
    · intro hrt
      simp [CPU.execute_instruction, CPU.instr_dispatch, hop, upd, hrt]
  · intro hop hll heq
    refine ⟨?_, ?_, ?_⟩
    · simp [CPU.execute_instruction, CPU.instr_dispatch, hop, hll, heq]
    · intro hrt
      simp [CPU.execute_instruction, CPU.instr_dispatch, hop, hll, heq, upd, hrt]
    · simp [CPU.execute_instruction, CPU.instr_dispatch, hop, hll, heq]
  · intro hop hll hne
    refine ⟨?_, ?_, ?_⟩
    · simp [CPU.execute_instruction, CPU.instr_dispatch, hop, hll, hne]
    · simp [CPU.execute_instruction, CPU.instr_dispatch, hop, hll, hne, upd]
    · simp [CPU.execute_instruction, CPU.instr_dispatch, hop, hll, hne]

theorem ll_sc_semantics_witness :
    (scLinkState.execute_instruction 0xE0010100).mem =
      scLinkState.mem.write_word 0x100 (scLinkState.registers 1) ∧
    (scLinkState.execute_instruction 0xE0010100).registers 1 = 1 ∧
    (scLinkState.execute_instruction 0xE0010100).llbit = false := by
  have h := (ll_sc_semantics scLinkState 0xE0010100).2.1 (by decide) rfl (by decide)
  exact ⟨h.1, h.2.1 (by decide), h.2.2⟩

/-! ## C10: the load-delay machinery is never armed -/

/-- `step()` preserves a cleared load-delay flag: the commit branch is
skipped and no later stage of `step()` (nor any instruction) sets it. -/
theorem step_load_delay (s : CPU) (h : s.load_delay = false) :
    s.step.load_delay = false := by
  by_cases hr : s.running = false
  · simp [CPU.step, hr, h]
  · have hr2 : s.running = true := by revert hr; cases s.running <;> simp
    simp only [CPU.step, hr2, h]
    norm_num
    repeat' split
    all_goals simp [exec_load_delay, h]

/-- With no pending load-delay commit, the registers after `step()` are
exactly the registers produced by `execute_instruction` on the fetched
word: the later stages of `step()` never write general registers. -/
theorem step_registers_eq (s : CPU) (instr : Nat) (hr : s.running = true)
    (hld : s.load_delay = false) (hf : s.mem.read_word s.pc = instr) :
    s.step.registers = (s.execute_instruction instr).registers := by
  subst hf
  simp only [CPU.step, hr, hld]
  norm_num
  repeat' split
  all_goals rfl

/-- C10: the load-delay mechanism is never armed.  (1) Every state reachable
through the public driver API has the flag false, so it is false at the
start and end of each `step()`.  (2) No instruction path of
`execute_instruction` changes the flag.  (3) Each load instruction (LB, LH,
LW, LBU, LHU, LWR, LWU, LL) writes its destination register within its own
`step()`, so the loaded value is visible immediately afterwards (destination
rt ≠ 0; register 0 is hardwired to 0). -/
theorem load_delay_never_armed :
    (∀ s, Reachable s → s.load_delay = false) ∧
    (∀ (s : CPU) (i : Nat), (s.execute_instruction i).load_delay = s.load_delay) ∧
    (∀ (s : CPU) (instr : Nat), s.running = true → s.load_delay = false →
      s.mem.read_word s.pc = instr → instr >>> 26 &&& 0x3F = 0x20 →
      instr >>> 16 &&& 0x1F ≠ 0 →
      s.step.registers (instr >>> 16 &&& 0x1F) =
        (if s.mem.read_byte ((s.registers (instr >>> 21 &&& 0x1F) + sign_extend_16 (instr &&& 0xFFFF)) &&& 0xFFFFFFFF) &&& 0x80 ≠ 0 then s.mem.read_byte ((s.registers (instr >>> 21 &&& 0x1F) + sign_extend_16 (instr &&& 0xFFFF)) &&& 0xFFFFFFFF) ||| 0xFFFFFF00 else s.mem.read_byte ((s.registers (instr >>> 21 &&& 0x1F) + sign_extend_16 (instr &&& 0xFFFF)) &&& 0xFFFFFFFF)) &&& 0xFFFFFFFF) ∧
    (∀ (s : CPU) (instr : Nat), s.running = true → s.load_delay = false →
      s.mem.read_word s.pc = instr → instr >>> 26 &&& 0x3F = 0x21 →
      instr >>> 16 &&& 0x1F ≠ 0 →
      s.step.registers (instr >>> 16 &&& 0x1F) =
        (if s.mem.read_half ((s.registers (instr >>> 21 &&& 0x1F) + sign_extend_16 (instr &&& 0xFFFF)) &&& 0xFFFFFFFF) &&& 0x8000 ≠ 0 then s.mem.read_half ((s.registers (instr >>> 21 &&& 0x1F) + sign_extend_16 (instr &&& 0xFFFF)) &&& 0xFFFFFFFF) ||| 0xFFFF0000 else s.mem.read_half ((s.registers (instr >>> 21 &&& 0x1F) + sign_extend_16 (instr &&& 0xFFFF)) &&& 0xFFFFFFFF)) &&& 0xFFFFFFFF) ∧
    (∀ (s : CPU) (instr : Nat), s.running = true → s.load_delay = false →
      s.mem.read_word s.pc = instr → instr >>> 26 &&& 0x3F = 0x23 →
      instr >>> 16 &&& 0x1F ≠ 0 →
      s.step.registers (instr >>> 16 &&& 0x1F) =
        s.mem.read_word ((s.registers (instr >>> 21 &&& 0x1F) + sign_extend_16 (instr &&& 0xFFFF)) &&& 0xFFFFFFFF)) ∧
    (∀ (s : CPU) (instr : Nat), s.running = true → s.load_delay = false →
      s.mem.read_word s.pc = instr → instr >>> 26 &&& 0x3F = 0x24 →
      instr >>> 16 &&& 0x1F ≠ 0 →
      s.step.registers (instr >>> 16 &&& 0x1F) =
        s.mem.read_byte ((s.registers (instr >>> 21 &&& 0x1F) + sign_extend_16 (instr &&& 0xFFFF)) &&& 0xFFFFFFFF)) ∧
    (∀ (s : CPU) (instr : Nat), s.running = true → s.load_delay = false →
      s.mem.read_word s.pc = instr → instr >>> 26 &&& 0x3F = 0x25 →
      instr >>> 16 &&& 0x1F ≠ 0 →
      s.step.registers (instr >>> 16 &&& 0x1F) =
        s.mem.read_half ((s.registers (instr >>> 21 &&& 0x1F) + sign_extend_16 (instr &&& 0xFFFF)) &&& 0xFFFFFFFF)) ∧
    (∀ (s : CPU) (instr : Nat), s.running = true → s.load_delay = false →
      s.mem.read_word s.pc = instr → instr >>> 26 &&& 0x3F = 0x26 →
      instr >>> 16 &&& 0x1F ≠ 0 →
      s.step.registers (instr >>> 16 &&& 0x1F) =
        pyAndNot (s.registers (instr >>> 16 &&& 0x1F)) ((1 <<< ((((s.registers (instr >>> 21 &&& 0x1F) + sign_extend_16 (instr &&& 0xFFFF)) &&& 0xFFFFFFFF) &&& 3) * 8)) - 1) ||| (s.mem.read_word (pyAndNot ((s.registers (instr >>> 21 &&& 0x1F) + sign_extend_16 (instr &&& 0xFFFF)) &&& 0xFFFFFFFF) 3) &&& ((1 <<< ((((s.registers (instr >>> 21 &&& 0x1F) + sign_extend_16 (instr &&& 0xFFFF)) &&& 0xFFFFFFFF) &&& 3) * 8)) - 1))) ∧
    (∀ (s : CPU) (instr : Nat), s.running = true → s.load_delay = false →
      s.mem.read_word s.pc = instr → instr >>> 26 &&& 0x3F = 0x27 →
      instr >>> 16 &&& 0x1F ≠ 0 →
      s.step.registers (instr >>> 16 &&& 0x1F) =
        s.mem.read_word ((s.registers (instr >>> 21 &&& 0x1F) + sign_extend_16 (instr &&& 0xFFFF)) &&& 0xFFFFFFFF)) ∧
    (∀ (s : CPU) (instr : Nat), s.running = true → s.load_delay = false →
      s.mem.read_word s.pc = instr → instr >>> 26 &&& 0x3F = 0x30 →
      instr >>> 16 &&& 0x1F ≠ 0 →
      s.step.registers (instr >>> 16 &&& 0x1F) =
        s.mem.read_word ((s.registers (instr >>> 21 &&& 0x1F) + sign_extend_16 (instr &&& 0xFFFF)) &&& 0xFFFFFFFF)) := by
  refine ⟨?_, exec_load_delay, ?_, ?_, ?_, ?_, ?_, ?_, ?_, ?_⟩
  · intro s h
    induction h with
    | init m => rfl
    | step t _ ih => exact step_load_delay t ih
    | reset t _ _ => rfl
    | setRunning t b _ ih => exact ih
    | setPC t a _ ih => exact ih
    | restore t st _ ih => exact ih
  · intro s instr hr hld hf hop hrt
    rw [step_registers_eq s instr hr hld hf]
    simp [CPU.execute_instruction, CPU.instr_dispatch, hop, upd, hrt]
  · intro s instr hr hld hf hop hrt
    rw [step_registers_eq s instr hr hld hf]
    simp [CPU.execute_instruction, CPU.instr_dispatch, hop, upd, hrt]
  · intro s instr hr hld hf hop hrt
    rw [step_registers_eq s instr hr hld hf]
    simp [CPU.execute_instruction, CPU.instr_dispatch, hop, upd, hrt]
  · intro s instr hr hld hf hop hrt
    rw [step_registers_eq s instr hr hld hf]
    simp [CPU.execute_instruction, CPU.instr_dispatch, hop, upd, hrt]
  · intro s instr hr hld hf hop hrt
    rw [step_registers_eq s instr hr hld hf]
    simp [CPU.execute_instruction, CPU.instr_dispatch, hop, upd, hrt]
  · intro s instr hr hld hf hop hrt
    rw [step_registers_eq s instr hr hld hf]
    simp [CPU.execute_instruction, CPU.instr_dispatch, hop, upd, hrt]
  · intro s instr hr hld hf hop hrt
    rw [step_registers_eq s instr hr hld hf]
    simp [CPU.execute_instruction, CPU.instr_dispatch, hop, upd, hrt]
  · intro s instr hr hld hf hop hrt
    rw [step_registers_eq s instr hr hld hf]
    simp [CPU.execute_instruction, CPU.instr_dispatch, hop, upd, hrt]

theorem load_delay_never_armed_witness :
    (CPU.init Memory.init).load_delay = false :=
  load_delay_never_armed.1 (CPU.init Memory.init) (Reachable.init Memory.init)

/-! ## C8: header endianness normalisation -/

/-- Pointwise description of the 4-byte group reversal: inside any complete
group, position `4k+j` of the output holds position `4k+(3-j)` of the
input. -/
theorem swap_endian_n64_getD :
    ∀ (l : List Nat) (k j : Nat), j < 4 → 4 * k + 3 < l.length →
      (swap_endian_n64 l).getD (4 * k + j) 0 = l.getD (4 * k + (3 - j)) 0
  | [], _, _, _, hl => by simp at hl
  | [_], k, _, _, hl => by simp at hl
  | [_, _], k, _, _, hl => by simp at hl; omega
  | [_, _, _], k, _, _, hl => by simp at hl
  | a :: b :: c :: d :: rest, k, j, hj, hl => by
    cases k with
    | zero =>
      simp only [swap_endian_n64, Nat.mul_zero, Nat.zero_add]
      interval_cases j <;> rfl
    | succ k =>
      have h1 : 4 * (k + 1) + j = 4 * k + j + 1 + 1 + 1 + 1 := by omega
      have h2 : 4 * (k + 1) + (3 - j) = 4 * k + (3 - j) + 1 + 1 + 1 + 1 := by omega
      have hl2 : 4 * k + 3 < rest.length := by simp at hl; omega
      simp only [swap_endian_n64, h1, h2, List.getD_cons_succ]
      exact swap_endian_n64_getD rest k j hj hl2

/-- The pairwise byte swap succeeds on every even-length buffer. -/
theorem swap_endian_v64_total :
    ∀ l : List Nat, l.length % 2 = 0 → ∃ r, swap_endian_v64 l = some r
  | [], _ => ⟨[], rfl⟩
  | [_], h => by simp at h
  | a :: b :: rest, h => by
    obtain ⟨r, hr⟩ := swap_endian_v64_total rest (by simp at h; omega)
    exact ⟨b :: a :: r, by simp [swap_endian_v64, hr]⟩

/-- Pointwise description of the pairwise byte swap: inside any complete
pair, position `2k+j` of the output holds position `2k+(1-j)` of the
input. -/
theorem swap_endian_v64_getD :
    ∀ (l r : List Nat), swap_endian_v64 l = some r →
      ∀ (k j : Nat), j < 2 → 2 * k + 1 < l.length →
        r.getD (2 * k + j) 0 = l.getD (2 * k + (1 - j)) 0
  | [], r, hr, k, j, hj, hl => by simp at hl
  | [_], r, hr, _, _, _, hl => by simp at hl
  | a :: b :: rest, r, hr, k, j, hj, hl => by
    rw [show swap_endian_v64 (a :: b :: rest) = (swap_endian_v64 rest).map (fun r2 => b :: a :: r2) from rfl] at hr
    cases hsw : swap_endian_v64 rest with
    | none => rw [hsw] at hr; simp at hr
    | some r2 =>
      rw [hsw] at hr
      simp at hr
      subst hr
      cases k with
      | zero =>
        simp only [Nat.mul_zero, Nat.zero_add]
        interval_cases j <;> rfl
      | succ k =>
        have h1 : 2 * (k + 1) + j = 2 * k + j + 1 + 1 := by omega
        have h2 : 2 * (k + 1) + (1 - j) = 2 * k + (1 - j) + 1 + 1 := by omega
        have hl2 : 2 * k + 1 < rest.length := by simp at hl; omega
        simp only [h1, h2, List.getD_cons_succ]
        exact swap_endian_v64_getD rest r2 hsw k j hj hl2

/-- C8 counterexample: on this 65-byte image (length ≥ 0x40) whose magic is
the byte-swapped value 0x37804012, the parser does not report endianness
'byteswap' — the pairwise swap reads one byte past the end of the odd-length
buffer and the `IndexError` aborts parsing (modelled as `none`). -/
theorem parse_v64_odd_crash :
    0x40 ≤ v64OddImage.length ∧
    be32 (v64OddImage.getD 0 0) (v64OddImage.getD 1 0) (v64OddImage.getD 2 0)
      (v64OddImage.getD 3 0) = 0x37804012 ∧
    ROMHeader.parse v64OddImage = none := by decide

/-- C8 (amended): for an image of at least 0x40 bytes, dispatch on the
big-endian magic of the captured header `raw = data.take 0x1000`:
0x80371240 reports 'big' with the bytes unchanged; 0x40123780 reports
'little' with every 4-byte group of the header reversed; 0x37804012 —
provided `raw` has even length, which holds in particular for every image
of at least 0x1000 bytes — reports 'byteswap' with adjacent byte pairs
swapped; any other magic is reported invalid. -/
theorem header_parse_endian (data : List Nat) (hlen : 0x40 ≤ data.length) :
    (be32 ((data.take 0x1000).getD 0 0) ((data.take 0x1000).getD 1 0)
        ((data.take 0x1000).getD 2 0) ((data.take 0x1000).getD 3 0) = 0x80371240 →
      ROMHeader.parse data = some ⟨true, "big", data.take 0x1000⟩) ∧
    (be32 ((data.take 0x1000).getD 0 0) ((data.take 0x1000).getD 1 0)
        ((data.take 0x1000).getD 2 0) ((data.take 0x1000).getD 3 0) = 0x40123780 →
      ∃ h, ROMHeader.parse data = some h ∧ h.valid = true ∧ h.endian = "little" ∧
        ∀ i, i < 0x40 →
          h.data.getD i 0 = (data.take 0x1000).getD (4 * (i / 4) + (3 - i % 4)) 0) ∧
    (be32 ((data.take 0x1000).getD 0 0) ((data.take 0x1000).getD 1 0)
        ((data.take 0x1000).getD 2 0) ((data.take 0x1000).getD 3 0) = 0x37804012 →
      (data.take 0x1000).length % 2 = 0 →
      ∃ h, ROMHeader.parse data = some h ∧ h.valid = true ∧ h.endian = "byteswap" ∧
        ∀ i, i < 0x40 →
          h.data.getD i 0 = (data.take 0x1000).getD (if i % 2 = 0 then i + 1 else i - 1) 0) ∧
    (be32 ((data.take 0x1000).getD 0 0) ((data.take 0x1000).getD 1 0)
        ((data.take 0x1000).getD 2 0) ((data.take 0x1000).getD 3 0) ≠ 0x80371240 →
      be32 ((data.take 0x1000).getD 0 0) ((data.take 0x1000).getD 1 0)
        ((data.take 0x1000).getD 2 0) ((data.take 0x1000).getD 3 0) ≠ 0x40123780 →
      be32 ((data.take 0x1000).getD 0 0) ((data.take 0x1000).getD 1 0)
        ((data.take 0x1000).getD 2 0) ((data.take 0x1000).getD 3 0) ≠ 0x37804012 →
      ROMHeader.parse data = some ⟨false, "unknown", data.take 0x1000⟩) := by
  have hraw : ¬((data.take 0x1000).length < 0x40) := by
    simp [List.length_take]
    omega
  have hrawlen : 0x40 ≤ (data.take 0x1000).length := by
    simp [List.length_take]
    omega
  refine ⟨?_, ?_, ?_, ?_⟩
  · intro hm
    simp only [ROMHeader.parse, if_neg hraw, if_pos hm]
  · intro hm
    refine ⟨⟨true, "little", swap_endian_n64 (data.take 0x1000)⟩, ?_, rfl, rfl, ?_⟩
    · simp only [ROMHeader.parse, if_neg hraw, hm]
      norm_num
    · intro i hi
      have he : 4 * (i / 4) + i % 4 = i := by omega
      have hb : 4 * (i / 4) + 3 < (data.take 0x1000).length := by omega
      have := swap_endian_n64_getD (data.take 0x1000) (i / 4) (i % 4) (by omega) hb
      rw [he] at this
      exact this
  · intro hm heven
    obtain ⟨r, hr⟩ := swap_endian_v64_total (data.take 0x1000) heven
    refine ⟨⟨true, "byteswap", r⟩, ?_, rfl, rfl, ?_⟩
    · simp only [ROMHeader.parse, if_neg hraw, hm, hr]
      norm_num
    · intro i hi
      have he : 2 * (i / 2) + i % 2 = i := by omega
      have he2 : 2 * (i / 2) + (1 - i % 2) = if i % 2 = 0 then i + 1 else i - 1 := by
        rcases Nat.mod_two_eq_zero_or_one i with h2 | h2 <;> simp [h2] <;> omega
      have hb : 2 * (i / 2) + 1 < (data.take 0x1000).length := by omega
      have := swap_endian_v64_getD (data.take 0x1000) r hr (i / 2) (i % 2) (by omega) hb
      rw [he, he2] at this
      exact this
  · intro h1 h2 h3
    simp only [ROMHeader.parse, if_neg hraw, if_neg h1, if_neg h2, if_neg h3]

theorem header_parse_endian_witness :
    ROMHeader.parse z64Image = some ⟨true, "big", z64Image.take 0x1000⟩ :=
  (header_parse_endian z64Image (by decide)).1 (by decide)

/-! ## C3: fast word path vs byte-composed path -/

/-- C3 counterexample: at the 4-byte-aligned address 0x08000000, inside the
mapped (primary) SRAM window, the fast word path returns 0 — `read_word`
has no SRAM branch — while the byte-composed path returns 0x01000000. -/
theorem read_word_sram_mismatch :
    0x08000000 % 4 = 0 ∧
    sramMem.read_word 0x08000000 = 0 ∧
    be32 (sramMem.read_byte 0x08000000) (sramMem.read_byte 0x08000001)
      (sramMem.read_byte 0x08000002) (sramMem.read_byte 0x08000003) = 0x01000000 := by
  decide

/-- C3 (amended): for every 4-byte-aligned address in the RAM windows
(primary or mirror) the fast word path agrees bit for bit with the
byte-composed path, and likewise in the ROM windows provided the addressed
word lies entirely inside the loaded image and the window or entirely
outside the image (`romPathOK`).  In the SRAM windows the fast path returns
0 instead (see the counterexample), and a word straddling the end of the
ROM image or of the ROM window reads 0 on the fast path only. -/
theorem read_word_agrees_with_bytes (m : Memory) (addr : Nat) (h4 : addr % 4 = 0)
    (hw : (addr < 0x00800000 ∨ (0xA0000000 ≤ addr ∧ addr < 0xA0800000)) ∨
      ((0x10000000 ≤ addr ∧ addr < 0x1FBFFFFF) ∧ romPathOK m addr 0x1FBFFFFF) ∨
      ((0xB0000000 ≤ addr ∧ addr < 0xBFFFFFFF) ∧ romPathOK m addr 0xBFFFFFFF)) :
    m.read_word addr =
      be32 (m.read_byte addr) (m.read_byte (addr + 1)) (m.read_byte (addr + 2))
        (m.read_byte (addr + 3)) := by
  rcases hw with hr | ⟨hwin, hok⟩ | ⟨hwin, hok⟩
  · have E0 : addr % 0x100000000 = addr := by omega
    have E1 : (addr + 1) % 0x100000000 = addr + 1 := by omega
    have E2 : (addr + 2) % 0x100000000 = addr + 2 := by omega
    have E3 : (addr + 3) % 0x100000000 = addr + 3 := by omega
    have Q1 : (addr + 1) % 0x800000 = addr % 0x800000 + 1 := by omega
    have Q2 : (addr + 2) % 0x800000 = addr % 0x800000 + 2 := by omega
    have Q3 : (addr + 3) % 0x800000 = addr % 0x800000 + 3 := by omega
    have C1 : addr + 1 < 0x00800000 ∨ (0xA0000000 ≤ addr + 1 ∧ addr + 1 < 0xA0800000) := by omega
    have C2 : addr + 2 < 0x00800000 ∨ (0xA0000000 ≤ addr + 2 ∧ addr + 2 < 0xA0800000) := by omega
    have C3 : addr + 3 < 0x00800000 ∨ (0xA0000000 ≤ addr + 3 ∧ addr + 3 < 0xA0800000) := by omega
    have GW3 : addr % 0x800000 + 3 < 0x800000 := by omega
    have G0 : addr % 0x800000 < 0x800000 := by omega
    have G1 : addr % 0x800000 + 1 < 0x800000 := by omega
    have G2 : addr % 0x800000 + 2 < 0x800000 := by omega
    simp only [Memory.read_word, Memory.read_byte, be32, and32_mod, and23_mod]
    rw [E0, E1, E2, E3, Q1, Q2, Q3]
    simp only [if_pos hr, if_pos C1, if_pos C2, if_pos C3, if_pos GW3, if_pos G0, if_pos G1,
      if_pos G2]
  · simp only [romPathOK, and28_mod] at hok
    have E0 : addr % 0x100000000 = addr := by omega
    have E1 : (addr + 1) % 0x100000000 = addr + 1 := by omega
    have E2 : (addr + 2) % 0x100000000 = addr + 2 := by omega
    have E3 : (addr + 3) % 0x100000000 = addr + 3 := by omega
    have P1 : (addr + 1) % 0x10000000 = addr % 0x10000000 + 1 := by omega
    have P2 : (addr + 2) % 0x10000000 = addr % 0x10000000 + 2 := by omega
    have P3 : (addr + 3) % 0x10000000 = addr % 0x10000000 + 3 := by omega
    have NR0 : ¬(addr < 0x00800000 ∨ (0xA0000000 ≤ addr ∧ addr < 0xA0800000)) := by omega
    have NR1 : ¬(addr + 1 < 0x00800000 ∨ (0xA0000000 ≤ addr + 1 ∧ addr + 1 < 0xA0800000)) := by omega
    have NR2 : ¬(addr + 2 < 0x00800000 ∨ (0xA0000000 ≤ addr + 2 ∧ addr + 2 < 0xA0800000)) := by omega
    have NR3 : ¬(addr + 3 < 0x00800000 ∨ (0xA0000000 ≤ addr + 3 ∧ addr + 3 < 0xA0800000)) := by omega
    have NS0 : ¬((0x08000000 ≤ addr ∧ addr < 0x08008000) ∨ (0xA8000000 ≤ addr ∧ addr < 0xA8008000)) := by omega
    have NS1 : ¬((0x08000000 ≤ addr + 1 ∧ addr + 1 < 0x08008000) ∨ (0xA8000000 ≤ addr + 1 ∧ addr + 1 < 0xA8008000)) := by omega
    have NS2 : ¬((0x08000000 ≤ addr + 2 ∧ addr + 2 < 0x08008000) ∨ (0xA8000000 ≤ addr + 2 ∧ addr + 2 < 0xA8008000)) := by omega
    have NS3 : ¬((0x08000000 ≤ addr + 3 ∧ addr + 3 < 0x08008000) ∨ (0xA8000000 ≤ addr + 3 ∧ addr + 3 < 0xA8008000)) := by omega
    have PR : (0x10000000 ≤ addr ∧ addr < 0x1FBFFFFF) ∨ (0xB0000000 ≤ addr ∧ addr < 0xBFFFFFFF) := by omega
    simp only [Memory.read_word, Memory.read_byte, be32, and32_mod, and23_mod, and28_mod]
    rw [E0, E1, E2, E3, P1, P2, P3]
    rcases hok with hnone | hge | ⟨hlt, hin⟩
    · simp only [hnone, if_neg NR0, if_neg NR1, if_neg NR2, if_neg NR3, if_pos PR,
        if_neg NS0, if_neg NS1, if_neg NS2, if_neg NS3, ite_self]
      decide
    · have NGW : ¬(addr % 0x10000000 + 3 < m.rom_size) := by omega
      have NG0 : ¬(addr % 0x10000000 < m.rom_size) := by omega
      have NG1 : ¬(addr % 0x10000000 + 1 < m.rom_size) := by omega
      have NG2 : ¬(addr % 0x10000000 + 2 < m.rom_size) := by omega
      cases hrom : m.rom with
      | none =>
        simp only [if_neg NR0, if_neg NR1, if_neg NR2, if_neg NR3, if_pos PR,
          if_neg NS0, if_neg NS1, if_neg NS2, if_neg NS3, ite_self]
        decide
      | some r =>
        simp only [if_neg NR0, if_neg NR1, if_neg NR2, if_neg NR3, if_pos PR,
          if_neg NGW, if_neg NG0, if_neg NG1, if_neg NG2,
          if_neg NS0, if_neg NS1, if_neg NS2, if_neg NS3, ite_self]
        decide
    · have PR1 : (0x10000000 ≤ addr + 1 ∧ addr + 1 < 0x1FBFFFFF) ∨
          (0xB0000000 ≤ addr + 1 ∧ addr + 1 < 0xBFFFFFFF) := by omega
      have PR2 : (0x10000000 ≤ addr + 2 ∧ addr + 2 < 0x1FBFFFFF) ∨
          (0xB0000000 ≤ addr + 2 ∧ addr + 2 < 0xBFFFFFFF) := by omega
      have PR3 : (0x10000000 ≤ addr + 3 ∧ addr + 3 < 0x1FBFFFFF) ∨
          (0xB0000000 ≤ addr + 3 ∧ addr + 3 < 0xBFFFFFFF) := by omega
      have GW : addr % 0x10000000 + 3 < m.rom_size := hlt
      have G0 : addr % 0x10000000 < m.rom_size := by omega
      have G1 : addr % 0x10000000 + 1 < m.rom_size := by omega
      have G2 : addr % 0x10000000 + 2 < m.rom_size := by omega
      cases hrom : m.rom with
      | none =>
        simp only [if_neg NR0, if_neg NR1, if_neg NR2, if_neg NR3, if_pos PR,
          if_pos PR1, if_pos PR2, if_pos PR3]
        decide
      | some r =>
        simp only [if_neg NR0, if_neg NR1, if_neg NR2, if_neg NR3, if_pos PR,
          if_pos PR1, if_pos PR2, if_pos PR3, if_pos GW, if_pos G0, if_pos G1, if_pos G2]
  · simp only [romPathOK, and28_mod] at hok
    have E0 : addr % 0x100000000 = addr := by omega
    have E1 : (addr + 1) % 0x100000000 = addr + 1 := by omega
    have E2 : (addr + 2) % 0x100000000 = addr + 2 := by omega
    have E3 : (addr + 3) % 0x100000000 = addr + 3 := by omega
    have P1 : (addr + 1) % 0x10000000 = addr % 0x10000000 + 1 := by omega
    have P2 : (addr + 2) % 0x10000000 = addr % 0x10000000 + 2 := by omega
    have P3 : (addr + 3) % 0x10000000 = addr % 0x10000000 + 3 := by omega
    have NR0 : ¬(addr < 0x00800000 ∨ (0xA0000000 ≤ addr ∧ addr < 0xA0800000)) := by omega
    have NR1 : ¬(addr + 1 < 0x00800000 ∨ (0xA0000000 ≤ addr + 1 ∧ addr + 1 < 0xA0800000)) := by omega
    have NR2 : ¬(addr + 2 < 0x00800000 ∨ (0xA0000000 ≤ addr + 2 ∧ addr + 2 < 0xA0800000)) := by omega
    have NR3 : ¬(addr + 3 < 0x00800000 ∨ (0xA0000000 ≤ addr + 3 ∧ addr + 3 < 0xA0800000)) := by omega
    have NS0 : ¬((0x08000000 ≤ addr ∧ addr < 0x08008000) ∨ (0xA8000000 ≤ addr ∧ addr < 0xA8008000)) := by omega
    have NS1 : ¬((0x08000000 ≤ addr + 1 ∧ addr + 1 < 0x08008000) ∨ (0xA8000000 ≤ addr + 1 ∧ addr + 1 < 0xA8008000)) := by omega
    have NS2 : ¬((0x08000000 ≤ addr + 2 ∧ addr + 2 < 0x08008000) ∨ (0xA8000000 ≤ addr + 2 ∧ addr + 2 < 0xA8008000)) := by omega
    have NS3 : ¬((0x08000000 ≤ addr + 3 ∧ addr + 3 < 0x08008000) ∨ (0xA8000000 ≤ addr + 3 ∧ addr + 3 < 0xA8008000)) := by omega
    have PR : (0x10000000 ≤ addr ∧ addr < 0x1FBFFFFF) ∨ (0xB0000000 ≤ addr ∧ addr < 0xBFFFFFFF) := by omega
    simp only [Memory.read_word, Memory.read_byte, be32, and32_mod, and23_mod, and28_mod]
    rw [E0, E1, E2, E3, P1, P2, P3]
    rcases hok with hnone | hge | ⟨hlt, hin⟩
    · simp only [hnone, if_neg NR0, if_neg NR1, if_neg NR2, if_neg NR3, if_pos PR,
        if_neg NS0, if_neg NS1, if_neg NS2, if_neg NS3, ite_self]
      decide
    · have NGW : ¬(addr % 0x10000000 + 3 < m.rom_size) := by omega
      have NG0 : ¬(addr % 0x10000000 < m.rom_size) := by omega
      have NG1 : ¬(addr % 0x10000000 + 1 < m.rom_size) := by omega
      have NG2 : ¬(addr % 0x10000000 + 2 < m.rom_size) := by omega
      cases hrom : m.rom with
      | none =>
        simp only [if_neg NR0, if_neg NR1, if_neg NR2, if_neg NR3, if_pos PR,
          if_neg NS0, if_neg NS1, if_neg NS2, if_neg NS3, ite_self]
        decide
      | some r =>
        simp only [if_neg NR0, if_neg NR1, if_neg NR2, if_neg NR3, if_pos PR,
          if_neg NGW, if_neg NG0, if_neg NG1, if_neg NG2,
          if_neg NS0, if_neg NS1, if_neg NS2, if_neg NS3, ite_self]
        decide
    · have PR1 : (0x10000000 ≤ addr + 1 ∧ addr + 1 < 0x1FBFFFFF) ∨
          (0xB0000000 ≤ addr + 1 ∧ addr + 1 < 0xBFFFFFFF) := by omega
      have PR2 : (0x10000000 ≤ addr + 2 ∧ addr + 2 < 0x1FBFFFFF) ∨
          (0xB0000000 ≤ addr + 2 ∧ addr + 2 < 0xBFFFFFFF) := by omega
      have PR3 : (0x10000000 ≤ addr + 3 ∧ addr + 3 < 0x1FBFFFFF) ∨
          (0xB0000000 ≤ addr + 3 ∧ addr + 3 < 0xBFFFFFFF) := by omega
      have GW : addr % 0x10000000 + 3 < m.rom_size := hlt
      have G0 : addr % 0x10000000 < m.rom_size := by omega
      have G1 : addr % 0x10000000 + 1 < m.rom_size := by omega
      have G2 : addr % 0x10000000 + 2 < m.rom_size := by omega
      cases hrom : m.rom with
      | none =>
        simp only [if_neg NR0, if_neg NR1, if_neg NR2, if_neg NR3, if_pos PR,
          if_pos PR1, if_pos PR2, if_pos PR3]
        decide
      | some r =>
        simp only [if_neg NR0, if_neg NR1, if_neg NR2, if_neg NR3, if_pos PR,
          if_pos PR1, if_pos PR2, if_pos PR3, if_pos GW, if_pos G0, if_pos G1, if_pos G2]

theorem read_word_agrees_with_bytes_witness :
    Memory.init.read_word 0 =
      be32 (Memory.init.read_byte 0) (Memory.init.read_byte 1) (Memory.init.read_byte 2)
        (Memory.init.read_byte 3) :=
  read_word_agrees_with_bytes Memory.init 0 rfl (Or.inl (by decide))

end Darkness
